import Mathlib

/-!
Shallow embedding of the ServVia Trust Engine verification subsystem
( servvia/servvia2/trust_engine/engine.py , class TrustEngine).

Modelling conventions:
* Python floats are modelled as rationals; every score the engine produces is
  an exact multiple of 0.1, so rational arithmetic agrees with the float
  arithmetic of the source on all reachable values, and Python round(x, 1)
  (banker rounding) is modelled exactly by rounding half to even.
* Python strings are Lean Strings; str.lower, str.strip, str.title and
  substring tests are modelled on the underlying character lists
  (ASCII-faithful, as is all data in the knowledge base).
* Python dicts are association lists in source declaration order (CPython
  preserves insertion order, keeping the first position of a duplicated key);
  dict.get and the in operator become List.lookup.  The three
  knowledge stores are loaded once and never mutated, so they are plain
  constants here.
* Python sets (the herb registry, and the set() de-duplication in
  verify_response) are modelled as lists without duplicates; Python set
  iteration order is unspecified, and no verified property depends on order.
* re.search of a word-bounded escaped herb name is modelled by an explicit
  word-boundary scanner, with word characters taken as alphanumerics plus
  underscore.
* Non-ASCII characters appearing in the string literals of the source (the file
  stores mojibake such as the bytes of a warning-sign emoji decoded as
  Latin-1) are reproduced exactly via unicode escapes.
-/

/-- Python str.lower (ASCII). -/
def pyLower (s : String) : String := ⟨s.data.map Char.toLower⟩

/-- Python str.strip : drop whitespace from both ends. -/
def pyStrip (s : String) : String :=
  ⟨((s.data.dropWhile Char.isWhitespace).reverse.dropWhile Char.isWhitespace).reverse⟩

/-- Character-list substring occurrence (contiguous). -/
def charsContain (needle : List Char) : List Char → Bool
  | [] => needle.isEmpty
  | c :: cs => needle.isPrefixOf (c :: cs) || charsContain needle cs

/-- Python needle in hay for strings. -/
def strContains (hay needle : String) : Bool := charsContain needle.data hay.data

/-- Python regex word character (ASCII approximation of backslash-w). -/
def isWordChar (c : Char) : Bool := c.isAlphanum || c = '_'

/-- Word-character test for an optional character; an edge counts as non-word. -/
def wordCharOpt : Option Char → Bool
  | Option.none => false
  | some c => isWordChar c

/-- The (nonempty) pattern matches at the current position with a word
boundary on both sides; left is the character just before the position. -/
def wordMatchHere (pat : List Char) (left : Option Char) (hay : List Char) : Bool :=
  pat.isPrefixOf hay
    && (wordCharOpt left != wordCharOpt pat.head?)
    && (wordCharOpt pat.getLast? != wordCharOpt (hay.drop pat.length).head?)

/-- Scan the haystack for a word-bounded occurrence of the pattern. -/
def wordSearchAux (pat : List Char) (left : Option Char) : List Char → Bool
  | [] => wordMatchHere pat left []
  | c :: cs => wordMatchHere pat left (c :: cs) || wordSearchAux pat (some c) cs

/-- Python re.search of backslash-b, re.escape(pat), backslash-b in hay. -/
def reWordSearch (pat hay : String) : Bool := wordSearchAux pat.data Option.none hay.data

/-- Python truthiness of a string: non-empty. -/
def strTruthy (s : String) : Bool := !s.data.isEmpty

/-- Python truthiness of an Optional[str]: not None and non-empty. -/
def optStrTruthy : Option String → Bool
  | Option.none => false
  | some s => strTruthy s

/-- Round half to even to an integer (Python round on exact values). -/
def roundHalfEven (q : ℚ) : ℤ :=
  if q - ⌊q⌋ < 1/2 then ⌊q⌋
  else if 1/2 < q - ⌊q⌋ then ⌊q⌋ + 1
  else if ⌊q⌋ % 2 = 0 then ⌊q⌋ else ⌊q⌋ + 1

/-- Python round(x, 1). -/
def pyRound1 (q : ℚ) : ℚ := (roundHalfEven (q * 10) : ℚ) / 10

/-- Display an exact-tenths score the way Python repr displays such a float
(used only in markdown formatting). -/
def scoreDisplay (q : ℚ) : String :=
  let n := roundHalfEven (q * 10)
  toString (n / 10) ++ "." ++ toString (n % 10).natAbs

/-- Python str.title (ASCII): uppercase a letter not preceded by a letter. -/
def titleAux : Bool → List Char → List Char
  | _, [] => []
  | prevAlpha, c :: cs =>
    (if c.isAlpha then (if prevAlpha then c.toLower else c.toUpper) else c)
      :: titleAux c.isAlpha cs

/-- Python str.title on a string. -/
def pyTitle (s : String) : String := ⟨titleAux false s.data⟩

/-- Drug-herb interaction severity levels (enum InteractionSeverity). -/
inductive InteractionSeverity
  | critical
  | high
  | moderate
  | low
  | sevNone
deriving DecidableEq

/-- One evidence_db entry: the fields of the per-pair dict that the engine
reads (tier is stored as the numeric EvidenceTier value; pubmed_ids and dose
are read with .get defaults). -/
structure Evidence where
  tier : Nat
  mechanism : String
  pubmed_ids : List String
  dose : String
deriving DecidableEq

/-- One interactions_db entry. -/
structure InteractionData where
  interacts_with : List (String × InteractionSeverity)
  effect : String
  alternatives : List String
deriving DecidableEq

/-- One contraindications entry; the engine reads only the conditions list
(the pregnancy / surgery / max_duration advisory strings are never read by
any method modelled here). -/
structure ContraData where
  conditions : List String
deriving DecidableEq

/-- Result of verifying a single remedy claim (dataclass VerificationResult). -/
structure VerificationResult where
  herb_name : String
  condition : String
  is_valid : Bool
  confidence_score : ℚ
  evidence_tier : Nat
  evidence_tier_label : String
  mechanism : String
  pubmed_count : Nat
  warnings : List String
  is_hallucination : Bool
  hallucination_reason : Option String
  interaction_note : Option String
  recommended_dose : Option String

/-- The TrustEngine state: the four knowledge stores built at initialization. -/
structure TrustEngine where
  evidence_db : List ((String × String) × Evidence)
  interactions_db : List (String × InteractionData)
  contraindications : List (String × ContraData)
  known_herbs : List String
/-- Chunk 1 of evidence_db (split only to keep elaboration fast). -/
def evidence_db_1 : List ((String × String) × Evidence) := [
  (("peppermint", "headache"), ⟨1, "Menthol activates TRPM8 cold receptors, providing cooling analgesia.  Improves cerebral blood flow and reduces muscle tension.", ["PMC4960504", "PMC6540030"], "2-3 drops peppermint oil topically on temples, or 1-2 cups peppermint tea"⟩),
  (("ginger", "headache"), ⟨2, "Gingerols and shogaols inhibit prostaglandin synthesis (similar to NSAIDs), reducing neurogenic inflammation.", ["PMC3665023"], "250mg-1g dried ginger extract, or 1-inch fresh ginger in tea"⟩),
  (("lavender", "headache"), ⟨1, "Linalool and linalyl acetate modulate GABAergic transmission, reducing pain perception and stress response.", ["PMC3612440", "PMC5437114"], "Aromatherapy for 15-30 minutes, or 2-3 drops diluted oil on temples"⟩),
  (("clove", "headache"), ⟨2, "Eugenol (85% of clove oil) inhibits cyclooxygenase enzymes, providing analgesic effects.", ["PMC3769004"], "1-2 cloves as tea, or diluted clove oil topically"⟩),
  (("feverfew", "headache"), ⟨1, "Parthenolide inhibits serotonin release and prostaglandin synthesis, preventing migraine onset.", ["PMC3210009"], "50-150mg dried leaf daily for prevention"⟩),
  (("tulsi", "fever"), ⟨2, "Eugenol has antipyretic effects via prostaglandin inhibition.  Also provides immunomodulatory support.", ["PMC4296439"], "5-10 fresh leaves as tea, or 300-600mg extract, 2-3 times daily"⟩),
  (("ginger", "fever"), ⟨2, "Gingerols have antipyretic properties, promote sweating (diaphoretic), and support immune function.", ["PMC3665023", "PMC6341159"], "1-2g fresh ginger in tea, 2-3 times daily"⟩),
  (("neem", "fever"), ⟨2, "Nimbidin and nimbin compounds have antipyretic and antimalarial properties.", ["PMC3695574"], "Leaf decoction 1-2 times daily"⟩),
  (("giloy", "fever"), ⟨2, "Tinosporin provides immunomodulatory effects.  Traditionally used for chronic fevers.", ["PMC3644751", "PMC5411265"], "Juice or decoction 15-30ml, twice daily"⟩),
  (("coriander", "fever"), ⟨3, "Traditional cooling effect, supports hydration, mild antipyretic properties.", [], "1 tsp seeds boiled in water, 2-3 times daily"⟩),
  (("fenugreek", "fever"), ⟨3, "Mucilage content soothes, traditional use for fever reduction in Ayurveda.", ["PMC4325021"], "1 tsp seeds soaked overnight, consume with water"⟩),
  (("ginger", "cold"), ⟨2, "Gingerols and shogaols have antiviral, anti-inflammatory, and warming diaphoretic properties.", ["PMC3665023", "PMC6341159"], "1-2g fresh ginger in tea with honey, 3-4 times daily"⟩),
  (("tulsi", "cold"), ⟨2, "Eugenol and ursolic acid provide immunomodulatory, antimicrobial, and adaptogenic effects.", ["PMC4296439"], "5-10 fresh leaves as tea, 2-3 times daily"⟩),
  (("garlic", "cold"), ⟨2, "Allicin has broad-spectrum antimicrobial activity.  Boosts NK cell activity.", ["PMC4417560", "PMC6465033"], "1-2 raw cloves daily, crushed and rested 10 minutes before consuming"⟩),
  (("honey", "cold"), ⟨2, "Antimicrobial properties, demulcent action soothes throat, supports immune function.", ["PMC4264806"], "1-2 tablespoons as needed, or in warm water/tea"⟩),
  (("elderberry", "cold"), ⟨1, "Anthocyanins inhibit viral neuraminidase, reducing viral replication.  Boosts cytokine production.", ["PMC4848651", "PMC6124954"], "Standardized extract as per product directions"⟩),
  (("turmeric", "cold"), ⟨2, "Curcumin modulates immune response, has antiviral and anti-inflammatory properties.", ["PMC5664031"], "500mg-1g with black pepper, or golden milk"⟩),
  (("honey", "cough"), ⟨1, "Demulcent coating protects irritated throat.  Clinical trials show superiority over dextromethorphan.", ["PMC6513626", "PMC4264806"], "1-2 tablespoons before bed, or as needed"⟩),
  (("ginger", "cough"), ⟨2, "Relaxes airway smooth muscle, has anti-inflammatory and antitussive properties.", ["PMC3604064"], "Ginger tea with honey, 2-3 times daily"⟩),
  (("licorice", "cough"), ⟨2, "Glycyrrhizin has expectorant, demulcent, and antiviral properties.", ["PMC3123991"], "Tea 1-2 times daily.  Limit to 4-6 weeks continuous use."⟩)
]

/-- Chunk 2 of evidence_db (split only to keep elaboration fast). -/
def evidence_db_2 : List ((String × String) × Evidence) := [
  (("thyme", "cough"), ⟨1, "Thymol and carvacrol have antitussive, expectorant, and antimicrobial effects.", ["PMC5871214"], "Thyme tea 2-3 times daily"⟩),
  (("tulsi", "cough"), ⟨2, "Eugenol and other compounds provide expectorant and antimicrobial action.", ["PMC4296439"], "Fresh leaves in tea, or with honey and ginger"⟩),
  (("ginger", "nausea"), ⟨1, "5-HT3 receptor antagonism blocks nausea signals. Accelerates gastric emptying.  Effective for pregnancy, chemo, motion sickness.", ["PMC3016669", "PMC4818021"], "1-1.5g dried ginger, or 1-2g fresh, or 250mg extract 4 times daily"⟩),
  (("peppermint", "nausea"), ⟨2, "Menthol reduces gastric smooth muscle spasms and has antiemetic properties.", ["PMC4729798"], "Aromatherapy, or 1-2 cups tea"⟩),
  (("fennel", "nausea"), ⟨2, "Anethole has carminative and antispasmodic effects on GI tract.", ["PMC4137549"], "1 tsp seeds as tea after meals"⟩),
  (("chamomile", "nausea"), ⟨2, "Bisabolol and chamazulene have anti-inflammatory and antispasmodic effects.", ["PMC2995283"], "1-2 cups tea as needed"⟩),
  (("ginger", "indigestion"), ⟨1, "Accelerates gastric emptying by 50%. Reduces nausea and bloating.", ["PMC3016669"], "1-2g before or with meals"⟩),
  (("peppermint", "indigestion"), ⟨1, "Menthol relaxes lower esophageal sphincter and intestinal smooth muscle.  Reduces IBS symptoms.", ["PMC4729798", "PMC6337770"], "Enteric-coated oil (0.2-0.4ml) or tea after meals"⟩),
  (("fennel", "indigestion"), ⟨2, "Anethole has carminative and antispasmodic effects.  Reduces gas and bloating.", ["PMC4137549"], "1 tsp seeds chewed or as tea after meals"⟩),
  (("cumin", "indigestion"), ⟨2, "Stimulates digestive enzyme secretion, has carminative properties.", ["PMC4375161"], "1 tsp seeds in warm water, or as tea"⟩),
  (("ajwain", "indigestion"), ⟨2, "Thymol content provides carminative and antispasmodic effects.", ["PMC3611645"], "1/2 tsp seeds with warm water after meals"⟩),
  (("ashwagandha", "anxiety"), ⟨1, "Withanolides modulate GABA receptors.  Reduces cortisol by 27. 9% in clinical trials.", ["PMC3573577", "PMC6979308"], "300-600mg standardized extract (5% withanolides) daily"⟩),
  (("ashwagandha", "stress"), ⟨1, "Adaptogenic action normalizes cortisol.  Reduces perceived stress by 44% in trials.", ["PMC3573577"], "300-600mg standardized extract daily"⟩),
  (("chamomile", "anxiety"), ⟨1, "Apigenin binds to benzodiazepine receptors. Clinically effective for GAD.", ["PMC2995283", "PMC5589141"], "220-1100mg extract, or 1-4 cups tea daily"⟩),
  (("lavender", "anxiety"), ⟨1, "Silexan (lavender oil) shows efficacy comparable to lorazepam in clinical trials.", ["PMC3612440", "PMC6007527"], "80-160mg Silexan capsule, or aromatherapy 15-30 minutes"⟩),
  (("brahmi", "anxiety"), ⟨2, "Bacosides modulate serotonin, dopamine, and reduce cortisol.", ["PMC3746283"], "300-450mg standardized extract daily"⟩),
  (("tulsi", "stress"), ⟨2, "Adaptogenic effects normalize stress hormones and neurotransmitters.", ["PMC4296439"], "300-600mg extract or 2-3 cups tea daily"⟩),
  (("ashwagandha", "insomnia"), ⟨1, "Triethylene glycol promotes non-REM sleep.  Reduces sleep latency significantly.", ["PMC6827862"], "300mg extract 1-2 hours before bed"⟩),
  (("chamomile", "insomnia"), ⟨2, "Apigenin has mild sedative effects via benzodiazepine receptor binding.", ["PMC2995283"], "1-2 cups tea 30-60 minutes before bed"⟩),
  (("jatamansi", "insomnia"), ⟨2, "Nardostachys jatamansi has GABAergic and serotonergic effects.", ["PMC3252722"], "250-500mg powder before bed"⟩)
]

/-- Chunk 3 of evidence_db (split only to keep elaboration fast). -/
def evidence_db_3 : List ((String × String) × Evidence) := [
  (("lavender", "insomnia"), ⟨2, "Linalool modulates GABA receptors, promoting relaxation and sleep.", ["PMC3612440"], "Aromatherapy:  2-3 drops on pillow or in diffuser before bed"⟩),
  (("valerian", "insomnia"), ⟨1, "Valerenic acid increases GABA levels in the brain, promoting sleep.", ["PMC4394901"], "300-600mg extract 30-60 minutes before bed"⟩),
  (("passionflower", "insomnia"), ⟨1, "Flavonoids bind to GABA receptors, reducing anxiety and promoting sleep.", ["PMC2941540"], "250-500mg extract or 1-2 cups tea before bed"⟩),
  (("melatonin", "insomnia"), ⟨1, "Hormone that regulates circadian rhythm and sleep-wake cycles.", ["PMC4273450"], "0.5-5mg 30-60 minutes before bed (start low)"⟩),
  (("magnesium", "insomnia"), ⟨2, "Regulates GABA and melatonin, promotes muscle relaxation.", ["PMC5452159"], "200-400mg before bed"⟩),
  (("honey", "insomnia"), ⟨3, "May raise insulin slightly, allowing tryptophan to enter brain more easily.", [], "1-2 teaspoons in warm milk before bed"⟩),
  (("honey", "sore throat"), ⟨2, "Demulcent coating soothes, antimicrobial action fights infection.", ["PMC4264806"], "1-2 tablespoons as needed, or in warm water with lemon"⟩),
  (("licorice", "sore throat"), ⟨2, "Glycyrrhizin has demulcent, anti-inflammatory, and antiviral effects.", ["PMC3123991"], "Gargle with tea, or drink 1-2 times daily"⟩),
  (("turmeric", "sore throat"), ⟨2, "Curcumin has potent anti-inflammatory and antimicrobial properties.", ["PMC5664031"], "Warm milk with 1/2 tsp turmeric and honey, or gargle with turmeric water"⟩),
  (("ginger", "sore throat"), ⟨2, "Anti-inflammatory gingerols and warming action soothe throat.", ["PMC3665023"], "Fresh ginger tea with honey, 2-3 times daily"⟩),
  (("slippery elm", "sore throat"), ⟨2, "Mucilage forms protective coating over irritated mucous membranes.", ["PMC3166406"], "Lozenges as needed, or tea"⟩),
  (("aloe vera", "burns"), ⟨1, "Acemannan promotes wound healing, reduces inflammation, antimicrobial properties.", ["PMC2763764", "PMC5537865"], "Apply fresh gel 2-3 times daily to affected area"⟩),
  (("honey", "burns"), ⟨1, "High osmolarity, hydrogen peroxide production, methylglyoxal provide antimicrobial wound healing.", ["PMC3941901", "PMC3609166"], "Apply thin layer under sterile dressing, change daily"⟩),
  (("coconut oil", "burns"), ⟨2, "Lauric acid provides antimicrobial action, fatty acids support skin barrier repair.", ["PMC4171909"], "Apply to healing/healed burns only (not fresh burns)"⟩),
  (("turmeric", "arthritis"), ⟨1, "Curcumin inhibits NF-\u00CE\u00BAB, COX-2, reduces inflammatory cytokines.  Comparable to NSAIDs in trials.", ["PMC5664031", "PMC6471669"], "500-1000mg curcumin with piperine (black pepper) daily"⟩),
  (("boswellia", "arthritis"), ⟨1, "Boswellic acids (AKBA) inhibit 5-lipoxygenase, reduce cartilage degradation.", ["PMC3309643"], "300-500mg extract 2-3 times daily"⟩),
  (("ginger", "arthritis"), ⟨2, "Gingerols inhibit prostaglandin and leukotriene synthesis.", ["PMC3665023"], "250mg-1g extract or 2-3g fresh daily"⟩),
  (("turmeric", "joint pain"), ⟨1, "Curcumin reduces joint inflammation and pain through multiple pathways.", ["PMC5664031"], "500-1000mg curcumin with piperine daily"⟩),
  (("tea tree", "acne"), ⟨1, "Terpinen-4-ol has antibacterial action against P.acnes.  Comparable to 5% benzoyl peroxide.", ["PMC4025519"], "5% tea tree oil gel applied topically twice daily"⟩),
  (("neem", "acne"), ⟨2, "Nimbidin has antibacterial and anti-inflammatory effects against acne.", ["PMC3695574"], "Neem paste or neem soap topically"⟩)
]

/-- Chunk 4 of evidence_db (split only to keep elaboration fast). -/
def evidence_db_4 : List ((String × String) × Evidence) := [
  (("turmeric", "acne"), ⟨2, "Curcumin reduces sebum production, has antimicrobial effects.", ["PMC5822982"], "Topical paste with honey, leave 10-15 minutes"⟩),
  (("clove", "toothache"), ⟨1, "Eugenol (85%) is FDA-approved dental analgesic. Inhibits pain signal transmission.", ["PMC3769004", "PMC5751100"], "Apply clove oil directly to affected tooth/gum, or place whole clove on tooth"⟩),
  (("ginger", "menstrual cramps"), ⟨1, "Gingerols inhibit prostaglandin synthesis, reducing uterine contractions.  Clinical trials show efficacy comparable to NSAIDs like ibuprofen.", ["PMC3518208", "PMC4871956"], "250mg ginger powder 4 times daily, or 1-2g fresh ginger tea"⟩),
  (("chamomile", "menstrual cramps"), ⟨2, "Apigenin has antispasmodic effects on uterine smooth muscle, reducing cramping.", ["PMC2995283"], "2-3 cups chamomile tea daily during menstruation"⟩),
  (("cinnamon", "menstrual cramps"), ⟨1, "Cinnamaldehyde has antispasmodic and anti-inflammatory properties.  Clinical trials show significant pain reduction.", ["PMC4443385"], "420mg extract 3 times daily, or 1/2 tsp powder in warm water"⟩),
  (("fennel", "menstrual cramps"), ⟨1, "Anethole relaxes uterine smooth muscle.  Clinical trials show efficacy comparable to mefenamic acid.", ["PMC4137549", "PMC5770526"], "30mg fennel extract 4 times daily, or fennel seed tea"⟩),
  (("chasteberry", "menstrual cramps"), ⟨1, "Modulates dopamine receptors affecting prolactin, regulates menstrual cycle.  Clinical evidence for PMS and dysmenorrhea.", ["PMC3659324", "PMC6891434"], "20-40mg standardized extract daily"⟩),
  (("turmeric", "menstrual cramps"), ⟨2, "Curcumin inhibits prostaglandin synthesis and has anti-inflammatory effects.", ["PMC5664031"], "500mg curcumin with black pepper, twice daily"⟩),
  (("fenugreek", "menstrual cramps"), ⟨2, "Reduces prostaglandin levels, has antispasmodic properties.", ["PMC4325021"], "1800-2700mg seed powder daily during menstruation"⟩),
  (("valerian", "menstrual cramps"), ⟨2, "Valerenic acid has antispasmodic effects on smooth muscle.", ["PMC4394901"], "255mg extract 3 times daily during menstruation"⟩),
  (("magnesium", "headache"), ⟨1, "Magnesium deficiency is linked to migraines.  Supplementation reduces frequency and severity of tension-type and migraine headaches.", ["PMC5566093", "PMC6024559"], "Adults: 400-600mg daily.  Children (6-12): 200-300mg daily.  Start low to avoid GI upset."⟩),
  (("magnesium", "muscle pain"), ⟨2, "Magnesium is essential for muscle relaxation.  Deficiency causes cramps and tension.", ["PMC5637834"], "400-600mg daily"⟩),
  (("ginger", "joint pain"), ⟨2, "Gingerols inhibit prostaglandin and leukotriene synthesis, reducing joint inflammation.", ["PMC3665023"], "250mg-1g extract or 2-3g fresh daily"⟩),
  (("boswellia", "joint pain"), ⟨1, "Boswellic acids (AKBA) inhibit 5-lipoxygenase, reduce cartilage degradation and joint inflammation.", ["PMC3309643"], "300-500mg extract 2-3 times daily"⟩),
  (("ginger", "bloating"), ⟨1, "Gingerols accelerate gastric emptying by 50%, reducing bloating and discomfort.", ["PMC3016669"], "1-2g fresh ginger in tea, or chew small piece before meals"⟩),
  (("fennel", "bloating"), ⟨2, "Anethole has carminative and antispasmodic effects, reducing gas and bloating.", ["PMC4137549"], "1 tsp fennel seeds chewed or as tea after meals"⟩),
  (("peppermint", "bloating"), ⟨1, "Menthol relaxes intestinal smooth muscle, reducing spasms and trapped gas.", ["PMC4729798"], "1-2 cups peppermint tea after meals"⟩),
  (("ajwain", "bloating"), ⟨2, "Thymol content provides strong carminative effects.", ["PMC3611645"], "1/2 tsp seeds with warm water after meals"⟩),
  (("cumin", "bloating"), ⟨2, "Stimulates digestive enzymes, reduces gas formation.", ["PMC4375161"], "1 tsp cumin seeds in warm water or as tea"⟩),
  (("ginger", "constipation"), ⟨2, "Stimulates gastric motility and promotes bowel movements.", ["PMC3016669"], "Ginger tea 2-3 times daily"⟩)
]

/-- Chunk 5 of evidence_db (split only to keep elaboration fast). -/
def evidence_db_5 : List ((String × String) × Evidence) := [
  (("triphala", "constipation"), ⟨1, "Gentle laxative effect, promotes healthy bowel movements without dependency.", ["PMC5567597"], "1-2g powder in warm water before bed"⟩),
  (("psyllium", "constipation"), ⟨1, "Soluble fiber absorbs water, adds bulk to stool, promotes regularity.", ["PMC6358997"], "5-10g with plenty of water, 1-2 times daily"⟩),
  (("aloe vera", "constipation"), ⟨2, "Anthraquinones stimulate intestinal contractions.", ["PMC2763764"], "100-200ml aloe juice daily (short term only)"⟩),
  (("ginger", "diarrhea"), ⟨2, "Anti-inflammatory properties soothe gut, may reduce intestinal spasms.", ["PMC3665023"], "Weak ginger tea, sipped slowly"⟩),
  (("chamomile", "diarrhea"), ⟨2, "Antispasmodic and anti-inflammatory effects calm intestinal irritation.", ["PMC2995283"], "1-2 cups chamomile tea"⟩),
  (("eucalyptus", "congestion"), ⟨2, "Eucalyptol (1,8-cineole) thins mucus and opens airways.", ["PMC5206475"], "Steam inhalation with 3-5 drops oil in hot water"⟩),
  (("peppermint", "congestion"), ⟨2, "Menthol activates cold receptors, creating sensation of easier breathing.", ["PMC4729798"], "Steam inhalation or peppermint tea"⟩),
  (("ginger", "congestion"), ⟨2, "Warming effect promotes circulation, helps clear nasal passages.", ["PMC3665023"], "Hot ginger tea with honey and lemon"⟩),
  (("tulsi", "congestion"), ⟨2, "Expectorant and antimicrobial properties help clear respiratory tract.", ["PMC4296439"], "Tulsi tea 2-3 times daily"⟩),
  (("honey", "congestion"), ⟨2, "Demulcent and antimicrobial, soothes throat and may thin mucus.", ["PMC4264806"], "1-2 tablespoons in warm water or tea"⟩),
  (("thyme", "bronchitis"), ⟨1, "Thymol has expectorant, antimicrobial, and bronchodilator effects.", ["PMC5871214"], "Thyme tea 3-4 times daily"⟩),
  (("licorice", "bronchitis"), ⟨2, "Glycyrrhizin has expectorant and anti-inflammatory properties.", ["PMC3123991"], "Licorice tea 1-2 times daily (limit to 4 weeks)"⟩),
  (("mullein", "bronchitis"), ⟨3, "Saponins act as expectorants, mucilage soothes airways.", [], "Mullein tea 2-3 times daily"⟩),
  (("aloe vera", "sunburn"), ⟨1, "Acemannan promotes healing, provides cooling relief, anti-inflammatory.", ["PMC2763764"], "Apply fresh gel liberally to affected area 3-4 times daily"⟩),
  (("coconut oil", "dry skin"), ⟨2, "Lauric acid and fatty acids restore skin barrier and moisture.", ["PMC4171909"], "Apply to skin after bathing while still damp"⟩),
  (("turmeric", "eczema"), ⟨2, "Curcumin reduces inflammatory cytokines and oxidative stress in skin.", ["PMC5822982"], "Topical paste (turmeric + coconut oil) or oral supplementation"⟩),
  (("neem", "eczema"), ⟨2, "Nimbidin has anti-inflammatory and antimicrobial properties.", ["PMC3695574"], "Neem oil diluted with carrier oil, applied topically"⟩),
  (("oatmeal", "eczema"), ⟨1, "Colloidal oatmeal forms protective barrier, reduces itching and inflammation.", ["PMC4499292"], "Oatmeal bath (1-2 cups) or colloidal oatmeal cream"⟩),
  (("tea tree", "fungal infection"), ⟨1, "Terpinen-4-ol has potent antifungal activity.", ["PMC4025519"], "5-10% tea tree oil applied topically twice daily"⟩),
  (("garlic", "fungal infection"), ⟨2, "Allicin and ajoene have antifungal properties.", ["PMC4417560"], "Crushed garlic paste applied topically (test first)"⟩)
]

/-- Chunk 6 of evidence_db (split only to keep elaboration fast). -/
def evidence_db_6 : List ((String × String) × Evidence) := [
  (("turmeric", "back pain"), ⟨2, "Curcumin inhibits inflammatory pathways, reduces pain mediators.", ["PMC5664031"], "500-1000mg curcumin with black pepper daily, or turmeric milk"⟩),
  (("ginger", "back pain"), ⟨2, "Gingerols reduce prostaglandins, anti-inflammatory effect.", ["PMC3665023"], "Ginger tea 2-3 times daily, or topical ginger compress"⟩),
  (("capsaicin", "back pain"), ⟨1, "Depletes substance P, reducing pain signal transmission.", ["PMC5222580"], "Topical cream (0.025-0.075%) applied 3-4 times daily"⟩),
  (("clove", "muscle pain"), ⟨2, "Eugenol has analgesic and anti-inflammatory properties.", ["PMC3769004"], "Diluted clove oil massage on affected area"⟩),
  (("peppermint", "muscle pain"), ⟨2, "Menthol provides cooling sensation, mild analgesic effect.", ["PMC4729798"], "Diluted peppermint oil massage"⟩),
  (("arnica", "muscle pain"), ⟨1, "Helenalin reduces inflammation and bruising.", ["PMC5843686"], "Arnica gel applied topically 2-3 times daily"⟩),
  (("epsom salt", "muscle pain"), ⟨3, "Magnesium absorption through skin may relax muscles (debated).", [], "1-2 cups in warm bath, soak 15-20 minutes"⟩),
  (("elderberry", "flu"), ⟨1, "Anthocyanins inhibit viral neuraminidase, boost cytokine production.", ["PMC4848651", "PMC6124954"], "Standardized extract as per product directions"⟩),
  (("echinacea", "cold"), ⟨1, "Polysaccharides and alkamides stimulate immune cell activity.", ["PMC3062766"], "300mg extract 3 times daily at first sign of cold"⟩),
  (("garlic", "immune support"), ⟨2, "Allicin boosts NK cell activity and has antimicrobial properties.", ["PMC4417560", "PMC6465033"], "2-3 raw cloves daily (crush and rest 10 min before eating)"⟩),
  (("amla", "immune support"), ⟨2, "High vitamin C content and antioxidants support immune function.", ["PMC3249901"], "500mg-1g powder or 1-2 fresh fruits daily"⟩),
  (("astragalus", "immune support"), ⟨2, "Polysaccharides enhance immune cell function.", ["PMC5758356"], "250-500mg extract daily"⟩),
  (("clove", "gum pain"), ⟨1, "Eugenol is FDA-approved dental analgesic.", ["PMC3769004"], "Apply clove oil to affected gum with cotton swab"⟩),
  (("salt water", "gum pain"), ⟨2, "Hypertonic solution reduces swelling, antimicrobial effect.", [], "1/2 tsp salt in warm water, swish for 30 seconds"⟩),
  (("turmeric", "gum inflammation"), ⟨2, "Curcumin reduces inflammatory cytokines in gum tissue.", ["PMC5664031"], "Turmeric paste applied to gums, or turmeric mouthwash"⟩),
  (("oil pulling", "oral health"), ⟨2, "Mechanical removal of bacteria, may reduce plaque.", ["PMC5198813"], "Swish 1 tbsp coconut/sesame oil for 15-20 min daily"⟩),
  (("coconut oil", "hair loss"), ⟨2, "Lauric acid penetrates hair shaft, reduces protein loss.", ["PMC4387693"], "Warm oil scalp massage 1-2 times weekly"⟩),
  (("rosemary", "hair loss"), ⟨1, "Improves scalp circulation, comparable to minoxidil in one study.", ["PMC4458925"], "Rosemary oil diluted in carrier oil, massaged into scalp"⟩),
  (("amla", "hair health"), ⟨3, "Vitamin C and antioxidants support hair follicle health.", ["PMC3249901"], "Amla oil scalp massage or amla powder hair mask"⟩),
  (("tea tree", "dandruff"), ⟨1, "Antifungal activity against Malassezia (dandruff-causing fungus).", ["PMC4025519"], "5% tea tree oil shampoo or add drops to regular shampoo"⟩)
]

/-- Chunk 7 of evidence_db (split only to keep elaboration fast). -/
def evidence_db_7 : List ((String × String) × Evidence) := [
  (("neem", "dandruff"), ⟨2, "Antifungal and anti-inflammatory properties.", ["PMC3695574"], "Neem oil scalp treatment or neem water rinse"⟩),
  (("raspberry leaf", "menstrual cramps"), ⟨2, "Fragarine has uterine tonic and antispasmodic effects.", ["PMC3192906"], "1-2 cups tea daily during menstruation"⟩),
  (("dong quai", "menstrual cramps"), ⟨2, "Relaxes uterine muscle, improves blood flow.", ["PMC3678828"], "200-500mg extract daily"⟩),
  (("black cohosh", "menopause symptoms"), ⟨1, "Triterpene glycosides have estrogen-like effects on certain receptors.", ["PMC5765531"], "20-40mg standardized extract twice daily"⟩),
  (("evening primrose", "pms"), ⟨2, "Gamma-linolenic acid (GLA) modulates prostaglandins.", ["PMC3033240"], "500-1000mg daily"⟩),
  (("shatavari", "hormonal balance"), ⟨2, "Phytoestrogens and saponins support female reproductive health.", ["PMC3136066"], "500-1000mg powder or extract daily"⟩),
  (("garlic", "high blood pressure"), ⟨1, "Allicin promotes vasodilation, reduces blood pressure by 5-8 mmHg.", ["PMC6465033", "PMC4266250"], "600-1200mg aged garlic extract daily, or 2-3 raw cloves"⟩),
  (("hibiscus", "high blood pressure"), ⟨1, "Anthocyanins act as ACE inhibitors, promote vasodilation.", ["PMC5465813"], "1-2 cups hibiscus tea daily"⟩),
  (("hawthorn", "heart health"), ⟨1, "Flavonoids improve coronary blood flow, have mild inotropic effect.", ["PMC3249900"], "160-900mg extract daily"⟩),
  (("omega 3", "heart health"), ⟨1, "EPA and DHA reduce triglycerides, inflammation, and arrhythmia risk.", ["PMC6566772"], "1-4g EPA+DHA daily"⟩),
  (("cinnamon", "blood sugar"), ⟨1, "Cinnamaldehyde improves insulin sensitivity and glucose uptake.", ["PMC4003790"], "1-6g powder daily, or 120-500mg extract"⟩),
  (("fenugreek", "blood sugar"), ⟨1, "Soluble fiber slows carbohydrate absorption, improves insulin response.", ["PMC4325021"], "5-50g seeds soaked overnight, or 500mg extract"⟩),
  (("brahmi", "memory"), ⟨1, "Bacosides enhance synaptic transmission, improve memory consolidation.", ["PMC3746283"], "300-450mg standardized extract daily"⟩),
  (("ginkgo", "memory"), ⟨1, "Flavonoids improve cerebral blood flow and antioxidant protection.", ["PMC3166615"], "120-240mg standardized extract daily"⟩),
  (("turmeric", "brain health"), ⟨2, "Curcumin crosses blood-brain barrier, reduces neuroinflammation.", ["PMC5664031"], "500-1000mg curcumin with piperine daily"⟩),
  (("ashwagandha", "memory"), ⟨2, "Withanolides reduce cortisol and oxidative stress affecting cognition.", ["PMC3573577"], "300-600mg standardized extract daily"⟩),
  (("rosemary", "concentration"), ⟨2, "Carnosic acid and 1,8-cineole improve alertness and cognitive performance.", ["PMC4749867"], "Aromatherapy or rosemary tea"⟩),
  (("chamomile", "eye strain"), ⟨3, "Anti-inflammatory properties soothe tired eyes.", [], "Cooled chamomile tea bags as eye compress for 10-15 minutes"⟩),
  (("cucumber", "eye strain"), ⟨3, "Cooling effect reduces puffiness and soothes eyes.", [], "Chilled cucumber slices on closed eyes for 10-15 minutes"⟩),
  (("rose water", "eye irritation"), ⟨3, "Anti-inflammatory and soothing properties.", [], "Few drops in eyes or as compress"⟩)
]

/-- Chunk 8 of evidence_db (split only to keep elaboration fast). -/
def evidence_db_8 : List ((String × String) × Evidence) := [
  (("ginger", "motion sickness"), ⟨1, "5-HT3 receptor antagonism reduces nausea signals from vestibular system.", ["PMC3016669"], "1g ginger 30 minutes before travel, then 500mg every 4 hours"⟩),
  (("peppermint", "motion sickness"), ⟨2, "Menthol calms stomach muscles and reduces nausea sensation.", ["PMC4729798"], "Peppermint tea or aromatherapy during travel"⟩),
  (("ginger", "hangover"), ⟨2, "Anti-nausea effects help with hangover symptoms.", ["PMC3016669"], "Ginger tea with honey"⟩),
  (("turmeric", "hangover"), ⟨2, "Supports liver detoxification, reduces inflammation.", ["PMC5664031"], "Turmeric milk or golden latte"⟩),
  (("peppermint", "hangover"), ⟨2, "Relieves nausea and headache symptoms.", ["PMC4729798"], "Peppermint tea"⟩),
  (("maca", "energy"), ⟨2, "Adaptogenic effects support adrenal function and energy levels.", ["PMC3184420"], "1. 5-3g powder daily"⟩),
  (("green tea", "energy"), ⟨1, "L-theanine + caffeine provides calm, focused energy.", ["PMC3518171"], "2-3 cups daily"⟩),
  (("moringa", "energy"), ⟨2, "Rich in nutrients, antioxidants, and iron that combat fatigue.", ["PMC5745501"], "1-2 tsp powder daily in smoothie or water"⟩),
  (("green tea", "fatigue"), ⟨1, "L-theanine + caffeine provides calm, focused energy without jitters.", ["PMC3518171"], "2-3 cups daily"⟩),
  (("moringa", "fatigue"), ⟨2, "Rich in iron, vitamins, and antioxidants that combat fatigue.", ["PMC5745501"], "1-2 tsp powder daily"⟩),
  (("rosemary", "memory"), ⟨2, "Carnosic acid and 1,8-cineole improve alertness and cognitive performance via acetylcholinesterase inhibition.", ["PMC4749867"], "Aromatherapy or rosemary tea"⟩),
  (("omega 3", "memory"), ⟨1, "DHA is essential for brain structure and cognitive function.", ["PMC6566772"], "1-2g EPA+DHA daily"⟩),
  (("fish oil", "memory"), ⟨1, "EPA and DHA support neuronal membrane health and reduce neuroinflammation.", ["PMC6566772"], "1-2g EPA+DHA daily"⟩),
  (("turmeric", "muscle pain"), ⟨2, "Curcumin inhibits inflammatory pathways and reduces delayed onset muscle soreness (DOMS).", ["PMC5664031"], "500-1000mg curcumin with black pepper daily"⟩),
  (("ginger", "muscle pain"), ⟨2, "Gingerols reduce prostaglandins, providing anti-inflammatory relief for sore muscles.", ["PMC3665023"], "2g fresh ginger or ginger tea daily"⟩),
  (("coconut oil", "dandruff"), ⟨2, "Lauric acid has antifungal properties and moisturizes dry scalp.", ["PMC4171909"], "Warm oil scalp massage 1-2 times weekly before washing"⟩),
  (("aloe vera", "dandruff"), ⟨2, "Anti-inflammatory and antifungal properties soothe scalp and reduce flaking.", ["PMC2763764"], "Apply fresh gel to scalp, leave 30 minutes, rinse"⟩),
  (("prunes", "constipation"), ⟨1, "Sorbitol and fiber content provide natural laxative effect.", ["PMC4291444"], "50g (about 5-6 prunes) daily"⟩),
  (("flaxseed", "constipation"), ⟨2, "Soluble and insoluble fiber adds bulk and promotes bowel movements.", ["PMC6124790"], "1-2 tablespoons ground flaxseed with water daily"⟩),
  (("senna", "constipation"), ⟨1, "Sennosides stimulate intestinal contractions.", ["PMC4027800"], "Senna tea before bed (short-term use only)"⟩)
]

/-- Chunk 9 of evidence_db (split only to keep elaboration fast). -/
def evidence_db_9 : List ((String × String) × Evidence) := [
  (("salt water", "wound"), ⟨2, "Hypertonic saline solution has antiseptic properties, helps clean wounds and promotes healing.", ["PMC4158441"], "1/2 tsp salt in 1 cup warm water, rinse or clean wound 2-3 times daily"⟩),
  (("salt water", "bleeding"), ⟨2, "Salt water rinse helps clean oral wounds and has mild antiseptic properties.", ["PMC4158441"], "Gentle rinse 2-3 times daily"⟩),
  (("turmeric", "wound"), ⟨2, "Curcumin has antimicrobial, anti-inflammatory properties and promotes wound healing by enhancing collagen deposition.", ["PMC5664031", "PMC2929771"], "Turmeric paste applied topically to wound"⟩),
  (("turmeric", "bleeding"), ⟨3, "Traditional use as hemostatic agent; curcumin may help with wound closure.", ["PMC2929771"], "Turmeric paste applied to minor cuts"⟩),
  (("aloe vera", "wound"), ⟨1, "Acemannan and other compounds promote wound healing, reduce inflammation, and have antimicrobial effects.", ["PMC2763764", "PMC5537865"], "Apply fresh gel 2-3 times daily to affected area"⟩),
  (("honey", "wound"), ⟨1, "High osmolarity, hydrogen peroxide production, and methylglyoxal provide antimicrobial wound healing properties.", ["PMC3941901", "PMC3609166"], "Apply thin layer under sterile dressing"⟩),
  (("ice", "bruise"), ⟨1, "Cold therapy constricts blood vessels, reduces swelling, inflammation, and numbs pain.", ["PMC3781860"], "Apply ice pack wrapped in cloth for 10-15 minutes"⟩),
  (("ice", "injury"), ⟨1, "Cryotherapy reduces blood flow to injured area, minimizing swelling and bruising.", ["PMC3781860"], "10-15 minutes every 1-2 hours for first 48 hours"⟩),
  (("arnica", "bruise"), ⟨1, "Helenalin reduces inflammation and bruising, speeds healing of soft tissue injuries.", ["PMC5843686"], "Arnica gel applied topically 2-3 times daily"⟩),
  (("ashwagandha", "fatigue"), ⟨1, "Improves VO2 max, reduces fatigue markers. Adaptogenic stress support.", ["PMC3573577", "PMC3545242"], "300-600mg standardized extract daily"⟩),
  (("ginseng", "fatigue"), ⟨1, "Ginsenosides modulate HPA axis, improve energy metabolism and mental clarity.", ["PMC3659612"], "200-400mg standardized extract daily"⟩),
  (("amla", "fatigue"), ⟨2, "High vitamin C content, antioxidants support energy and immunity.", ["PMC3249901"], "500mg-1g powder or 1-2 fresh fruits daily"⟩)
]

/-- The full evidence_db in source declaration order. -/
def evidence_db : List ((String × String) × Evidence) :=
  evidence_db_1 ++ evidence_db_2 ++ evidence_db_3 ++ evidence_db_4 ++ evidence_db_5 ++ evidence_db_6 ++ evidence_db_7 ++ evidence_db_8 ++ evidence_db_9

def interactions_db : List (String × InteractionData) := [
  ("ginger", ⟨[("aspirin", InteractionSeverity.high), ("ibuprofen", InteractionSeverity.moderate), ("warfarin", InteractionSeverity.critical), ("coumadin", InteractionSeverity.critical), ("blood thinner", InteractionSeverity.high), ("blood thinners", InteractionSeverity.high), ("anticoagulant", InteractionSeverity.high), ("plavix", InteractionSeverity.high), ("clopidogrel", InteractionSeverity.high)], "Ginger has blood-thinning properties (inhibits platelet aggregation). Combined with anticoagulants, it significantly increases bleeding risk.", ["Peppermint oil (topical)", "Lavender aromatherapy", "Cold/warm compress", "Chamomile tea"]⟩),
  ("turmeric", ⟨[("aspirin", InteractionSeverity.high), ("warfarin", InteractionSeverity.critical), ("blood thinner", InteractionSeverity.high), ("metformin", InteractionSeverity.moderate), ("diabetes medication", InteractionSeverity.moderate), ("insulin", InteractionSeverity.moderate)], "Curcumin has antiplatelet and blood sugar-lowering effects.  May cause bleeding or hypoglycemia when combined with these medications.", ["Boswellia (for inflammation)", "Cold compress", "Rest and elevation"]⟩),
  ("garlic", ⟨[("aspirin", InteractionSeverity.moderate), ("warfarin", InteractionSeverity.high), ("blood thinner", InteractionSeverity.moderate), ("hiv medication", InteractionSeverity.high), ("saquinavir", InteractionSeverity.high)], "Garlic inhibits platelet aggregation.  High doses may increase bleeding risk.", ["Onion (milder)", "Oregano", "Thyme"]⟩),
  ("ashwagandha", ⟨[("thyroid medication", InteractionSeverity.high), ("levothyroxine", InteractionSeverity.high), ("synthroid", InteractionSeverity.high), ("sedative", InteractionSeverity.moderate), ("benzodiazepine", InteractionSeverity.moderate), ("immunosuppressant", InteractionSeverity.high)], "Ashwagandha stimulates thyroid function and has sedative properties. May interfere with thyroid medication dosing.", ["Chamomile tea", "Lavender aromatherapy", "Deep breathing exercises", "Brahmi"]⟩),
  ("licorice", ⟨[("blood pressure medication", InteractionSeverity.high), ("bp medicine", InteractionSeverity.high), ("antihypertensive", InteractionSeverity.high), ("diuretic", InteractionSeverity.high), ("digoxin", InteractionSeverity.critical), ("heart medication", InteractionSeverity.high), ("corticosteroid", InteractionSeverity.moderate)], "Glycyrrhizin in licorice raises blood pressure and depletes potassium.  Counteracts BP medications.", ["Honey", "Slippery elm", "Marshmallow root"]⟩),
  ("ginseng", ⟨[("warfarin", InteractionSeverity.moderate), ("blood thinner", InteractionSeverity.moderate), ("diabetes medication", InteractionSeverity.moderate), ("metformin", InteractionSeverity.moderate), ("insulin", InteractionSeverity.moderate), ("antidepressant", InteractionSeverity.moderate), ("maoi", InteractionSeverity.high)], "Ginseng affects blood clotting, blood sugar, and has stimulant properties.", ["Green tea (moderate)", "Peppermint tea", "Amla"]⟩),
  ("st johns wort", ⟨[("antidepressant", InteractionSeverity.critical), ("ssri", InteractionSeverity.critical), ("birth control", InteractionSeverity.high), ("contraceptive", InteractionSeverity.high), ("hiv medication", InteractionSeverity.critical), ("immunosuppressant", InteractionSeverity.critical), ("warfarin", InteractionSeverity.high), ("cyclosporine", InteractionSeverity.critical)], "St. John\x27s Wort induces CYP450 enzymes, dramatically reducing effectiveness of many medications. Serotonin syndrome risk with SSRIs.", ["Lavender", "Chamomile", "Exercise", "Light therapy"]⟩),
  ("valerian", ⟨[("sedative", InteractionSeverity.high), ("benzodiazepine", InteractionSeverity.high), ("sleep medication", InteractionSeverity.high), ("ambien", InteractionSeverity.high), ("alcohol", InteractionSeverity.high), ("antihistamine", InteractionSeverity.moderate)], "Valerian has sedative effects that compound with other CNS depressants, risking over-sedation.", ["Chamomile tea", "Warm milk", "Lavender aromatherapy", "Sleep hygiene practices"]⟩),
  ("chamomile", ⟨[("warfarin", InteractionSeverity.low), ("blood thinner", InteractionSeverity.low), ("sedative", InteractionSeverity.low)], "Chamomile has mild blood-thinning and sedative effects. Generally safe in moderate amounts.", ["Lavender tea", "Warm milk with honey"]⟩),
  ("giloy", ⟨[("diabetes medication", InteractionSeverity.moderate), ("metformin", InteractionSeverity.moderate), ("immunosuppressant", InteractionSeverity.high)], "Giloy has immunomodulatory effects and may lower blood sugar.", ["Tulsi", "Amla"]⟩),
  ("neem", ⟨[("diabetes medication", InteractionSeverity.moderate), ("metformin", InteractionSeverity.moderate), ("immunosuppressant", InteractionSeverity.moderate)], "Neem may lower blood sugar and has immunomodulatory effects.", ["Turmeric", "Aloe vera"]⟩)
]

def contraindications : List (String × ContraData) := [
  ("ginger", ⟨["gallstones", "bleeding disorder", "hemophilia"]⟩),
  ("turmeric", ⟨["gallstones", "bile duct obstruction", "bleeding disorder"]⟩),
  ("ashwagandha", ⟨["hyperthyroidism", "autoimmune disease", "hashimoto"]⟩),
  ("licorice", ⟨["hypertension", "high blood pressure", "heart disease", "kidney disease", "hypokalemia"]⟩),
  ("neem", ⟨["autoimmune disease", "trying to conceive"]⟩),
  ("ginseng", ⟨["insomnia", "high blood pressure", "hormone-sensitive cancer"]⟩),
  ("valerian", ⟨[]⟩),
  ("kava", ⟨["liver disease", "depression", "parkinsons"]⟩)
]

/-- Chunk 1 of condition_map (split only to keep elaboration fast). -/
def condition_map_1 : List (String × List String) := [
  ("headache", ["headache", "head pain", "migraine", "head hurts"]),
  ("fever", ["fever", "temperature", "feverish"]),
  ("cold", ["cold", "runny nose", "congestion", "stuffy"]),
  ("cough", ["cough", "coughing"]),
  ("nausea", ["nausea", "nauseous", "vomit", "queasy"]),
  ("sore throat", ["sore throat", "throat pain", "throat hurts"]),
  ("indigestion", ["indigestion", "bloating", "gas", "acidity", "heartburn"]),
  ("anxiety", ["anxiety", "anxious", "nervous", "panic"]),
  ("stress", ["stress", "stressed", "tension"]),
  ("insomnia", ["insomnia", "sleep", "sleepless"]),
  ("fatigue", ["fatigue", "tired", "exhausted", "energy"]),
  ("joint pain", ["joint pain", "arthritis", "joints"]),
  ("back pain", ["back pain", "backache"]),
  ("constipation", ["constipation", "constipated"]),
  ("diarrhea", ["diarrhea", "loose stool"]),
  ("motion sickness", ["motion sickness", "car sick", "carsick", "travel sickness", "sea sick", "seasick"]),
  ("menstrual cramps", ["menstrual", "period pain", "period cramps", "cramps", "dysmenorrhea"]),
  ("muscle pain", ["muscle pain", "muscle ache", "sore muscles"]),
  ("inflammation", ["inflammation", "swelling", "inflamed"]),
  ("skin issues", ["rash", "eczema", "skin", "acne", "pimples"])
]

/-- Chunk 2 of condition_map (split only to keep elaboration fast). -/
def condition_map_2 : List (String × List String) := [
  ("burns", ["burn", "burnt", "scalded"]),
  ("sinus", ["sinus", "sinusitis"]),
  ("ear pain", ["ear pain", "earache"]),
  ("eye strain", ["eye strain", "tired eyes"]),
  ("diabetes", ["diabetes", "blood sugar"]),
  ("high blood pressure", ["blood pressure", "hypertension"]),
  ("immunity", ["immunity", "immune"]),
  ("hair loss", ["hair loss", "hair fall"]),
  ("weight loss", ["weight loss", "lose weight"]),
  ("depression", ["depression", "depressed"]),
  ("uti", ["uti", "urinary", "bladder"]),
  ("wound", ["wound", "cut", "bleeding", "injury", "punched", "hit", "bruise"]),
  ("bruise", ["bruise", "bruised", "swelling", "black eye"])
]

/-- The full condition_map in source declaration order. -/
def condition_map : List (String × List String) :=
  condition_map_1 ++ condition_map_2

/-- Chunk 1 of additional_herbs (split only to keep elaboration fast). -/
def additional_herbs_1 : List String := [
  "turmeric",
  "tulsi",
  "neem",
  "amla",
  "triphala",
  "shatavari",
  "moringa",
  "brahmi",
  "shankhpushpi",
  "jatamansi",
  "arjuna",
  "guggul",
  "bibhitaki",
  "haritaki",
  "manjistha",
  "ashwagandha",
  "giloy",
  "guduchi",
  "ajwain",
  "hing"
]

/-- Chunk 2 of additional_herbs (split only to keep elaboration fast). -/
def additional_herbs_2 : List String := [
  "asafoetida",
  "methi",
  "ginger",
  "garlic",
  "honey",
  "aloe vera",
  "coconut oil",
  "fennel",
  "cardamom",
  "cumin",
  "coriander",
  "fenugreek",
  "cinnamon",
  "black pepper",
  "clove",
  "mint",
  "peppermint",
  "chamomile",
  "lavender",
  "valerian"
]

/-- Chunk 3 of additional_herbs (split only to keep elaboration fast). -/
def additional_herbs_3 : List String := [
  "echinacea",
  "elderberry",
  "goldenseal",
  "slippery elm",
  "marshmallow root",
  "mullein",
  "nettle",
  "dandelion",
  "milk thistle",
  "ginkgo",
  "ginseng",
  "st johns wort",
  "feverfew",
  "butterbur",
  "passionflower",
  "eucalyptus",
  "tea tree",
  "rosemary",
  "thyme",
  "oregano"
]

/-- Chunk 4 of additional_herbs (split only to keep elaboration fast). -/
def additional_herbs_4 : List String := [
  "frankincense",
  "myrrh",
  "lemongrass",
  "citronella",
  "chasteberry",
  "vitex",
  "evening primrose",
  "dong quai",
  "black cohosh",
  "red raspberry leaf",
  "cramp bark",
  "motherwort",
  "raspberry leaf",
  "wild yam",
  "maca",
  "saffron",
  "rose",
  "hibiscus",
  "lemon balm",
  "boswellia"
]

/-- Chunk 5 of additional_herbs (split only to keep elaboration fast). -/
def additional_herbs_5 : List String := [
  "devils claw",
  "white willow",
  "willow bark",
  "meadowsweet",
  "cats claw",
  "astragalus",
  "hawthorn",
  "arnica",
  "capsaicin",
  "cayenne",
  "psyllium",
  "oatmeal",
  "cucumber",
  "rose water",
  "magnesium",
  "zinc",
  "vitamin c",
  "vitamin d",
  "iron",
  "calcium"
]

/-- Chunk 6 of additional_herbs (split only to keep elaboration fast). -/
def additional_herbs_6 : List String := [
  "omega 3",
  "fish oil",
  "probiotics",
  "melatonin",
  "b complex",
  "vitamin b12",
  "folate",
  "potassium",
  "selenium",
  "coq10",
  "green tea",
  "epsom salt",
  "oil pulling",
  "salt water"
]

/-- The full additional_herbs in source declaration order. -/
def additional_herbs : List String :=
  additional_herbs_1 ++ additional_herbs_2 ++ additional_herbs_3 ++ additional_herbs_4 ++ additional_herbs_5 ++ additional_herbs_6
/-- Keep the first occurrence of every element (Python set content as an
order-determinate list; no verified property depends on set order). -/
def dedupAux (seen : List String) : List String → List String
  | [] => []
  | a :: as => if seen.contains a then dedupAux seen as else a :: dedupAux (a :: seen) as

/-- Duplicate-free list of the elements of l, first occurrences first. -/
def pyDedup (l : List String) : List String := dedupAux [] l

/-- The herb registry (_build_herb_registry): evidence keys, interaction keys
and the curated supplemental list, lowercased, as a duplicate-free list. -/
def known_herbs_list : List String :=
  pyDedup ((evidence_db.map (fun p => pyLower p.1.1))
    ++ interactions_db.map (fun p => pyLower p.1)
    ++ additional_herbs.map pyLower)

/-- The fully initialized TrustEngine of the source (TrustEngine.__init__). -/
def theEngine : TrustEngine :=
  ⟨evidence_db, interactions_db, contraindications, known_herbs_list⟩

/-- Mojibake warning-sign prefix appearing in the interaction
warning literals. -/
def warnSign : String := "\u00E2\u009A\u00A0\u00EF\u00B8\u008F"

/-- Mojibake no-entry-sign prefix of the contraindication literals. -/
def noSign : String := "\u00F0\u009F\u009A\u00AB"

/-- Mojibake information-sign prefix of the hallucination summary literal. -/
def infoSign : String := "\u00E2\u0084\u00B9\u00EF\u00B8\u008F"

/-- The interaction warning text appended for one matching drug key, by
severity: critical and high produce the INTERACTION escalation, moderate the
Caution advisory, and low or none produce no warning at all (the if / elif
in _verify_single_claim step 1 has no branch for them). -/
def interactionWarningText (herb_name med effect : String)
    (severity : InteractionSeverity) : Option String :=
  if severity = InteractionSeverity.critical ∨ severity = InteractionSeverity.high then
    some (warnSign ++ " INTERACTION: " ++ herb_name ++ " may interact with "
      ++ med ++ ".  Reason: " ++ effect)
  else if severity = InteractionSeverity.moderate then
    some (warnSign ++ " Caution: " ++ herb_name ++ " + " ++ med
      ++ " - monitor for: " ++ effect)
  else Option.none

/-- Step 1 of _verify_single_claim: for each medication (outer loop) and each
registered drug key (inner loop), bidirectional substring match, appending
the severity-dependent warning text. -/
def interactionWarnings (e : TrustEngine) (herb_name herb_lower : String)
    (user_medications : List String) : List String :=
  match List.lookup herb_lower e.interactions_db with
  | Option.none => []
  | some idata =>
    user_medications.flatMap (fun med =>
      idata.interacts_with.filterMap (fun p =>
        if strContains (pyLower med) p.1 || strContains p.1 (pyLower med) then
          interactionWarningText herb_name med idata.effect p.2
        else Option.none))

/-- Step 2 of _verify_single_claim: a warning for every blocked condition
occurring as a (lowercased) substring of a user condition. -/
def contraindicationWarnings (e : TrustEngine) (herb_name herb_lower : String)
    (user_conditions : List String) : List String :=
  match List.lookup herb_lower e.contraindications with
  | Option.none => []
  | some contra =>
    contra.conditions.flatMap (fun blocked =>
      user_conditions.filterMap (fun user_cond =>
        if strContains (pyLower user_cond) (pyLower blocked) then
          some (noSign ++ " CONTRAINDICATED: Avoid " ++ herb_name ++ " with " ++ user_cond)
        else Option.none))

/-- Base score by tier (the base_scores dict with .get default 3.0). -/
def base_scores (tier_num : Nat) : ℚ :=
  if tier_num = 1 then 9.0 else if tier_num = 2 then 7.5 else if tier_num = 3 then 5.5
  else if tier_num = 4 then 3.5 else if tier_num = 5 then 1.5 else 3.0

/-- Tier display labels (the tier_labels dict with .get default "Unknown"). -/
def tier_labels (tier_num : Nat) : String :=
  if tier_num = 1 then "Clinical Trial" else if tier_num = 2 then "Mechanistic Study"
  else if tier_num = 3 then "Traditional Use" else if tier_num = 4 then "Anecdotal"
  else if tier_num = 5 then "Theoretical" else "Unknown"

/-- TrustEngine._verify_single_claim.  In the source the running
interaction_note variable ends up holding the last interaction warning
appended in step 1 (every assignment to it is immediately followed by
appending the same text), i.e. the last element of the step-1 list. -/
def verifySingleClaim (e : TrustEngine) (herb_name condition : String)
    (user_conditions user_medications : List String) : VerificationResult :=
  let herb_lower := pyLower herb_name
  let condition_lower := pyLower condition
  let step1 := interactionWarnings e herb_name herb_lower user_medications
  let interaction_note := step1.getLast?
  let warnings := step1 ++ contraindicationWarnings e herb_name herb_lower user_conditions
  match List.lookup (herb_lower, condition_lower) e.evidence_db with
  | some evidence =>
    let tier_num := evidence.tier
    let mechanism := evidence.mechanism
    let pubmed_ids := evidence.pubmed_ids
    let dose := evidence.dose
    let base_score := base_scores tier_num
    let pubmed_bonus := min ((pubmed_ids.length : ℚ) * 0.3) 1.0
    let mechanism_bonus : ℚ := if strTruthy mechanism then 0.5 else 0
    let score := min (base_score + pubmed_bonus + mechanism_bonus) 10.0
    let score := if warnings.isEmpty then score
      else max (score - (warnings.length : ℚ) * 1.0) 1.0
    ⟨herb_name, condition, true, pyRound1 score, tier_num, tier_labels tier_num,
      mechanism, pubmed_ids.length, warnings, false, Option.none,
      interaction_note, some dose⟩
  | Option.none =>
    ⟨herb_name, condition, false, 2.0, 5, "Unverified",
      "No documented mechanism for this condition", 0, warnings, true,
      some ("No evidence linking " ++ herb_name ++ " to " ++ condition),
      interaction_note, Option.none⟩

/-- TrustEngine._identify_condition: first condition (in declaration order of
the condition_map dict) one of whose keywords occurs in the lowercased query,
defaulting to "general health". -/
def identifyCondition (query : String) : String :=
  let query_lower := pyLower query
  match condition_map.find? (fun p => p.2.any (fun keyword => strContains query_lower keyword)) with
  | some p => p.1
  | Option.none => "general health"

/-- The condition verify_response checks against: the passed
current_condition lowercased and stripped when it is truthy (not None and
non-empty), else the query classifier. -/
def activeCondition (query : String) (current_condition : Option String) : String :=
  match current_condition with
  | some c => if strTruthy c then pyStrip (pyLower c) else identifyCondition query
  | Option.none => identifyCondition query

/-- The herb scan of verify_response: known herbs with a word-bounded
occurrence in the lowercased response, skipping herbs in the lowercased
allergy list. -/
def foundHerbs (e : TrustEngine) (llm_response : String)
    (user_allergies : List String) : List String :=
  let response_lower := pyLower llm_response
  e.known_herbs.filter (fun herb =>
    reWordSearch herb response_lower
      && !(user_allergies.map pyLower).contains herb)

/-- TrustEngine._generate_global_warnings (the interaction count is computed
but unused in the source). -/
def generateGlobalWarnings (results : List VerificationResult) : List String :=
  let _interaction_count := (results.filter (fun r => optStrTruthy r.interaction_note)).length
  let hallucination_count := (results.filter (fun r => r.is_hallucination)).length
  let contraindication_count :=
    (results.filter (fun r => r.warnings.any (fun w => strContains w "CONTRAINDICATED"))).length
  (if contraindication_count > 0 then
    [noSign ++ " " ++ toString contraindication_count
      ++ " remedy(s) may be contraindicated for you"] else [])
  ++ (if hallucination_count > 0 then
    [infoSign ++ " " ++ toString hallucination_count
      ++ " suggestion(s) could not be verified against our evidence database"] else [])

/-- TrustEngine.verify_response: the main verification entry point. -/
def verify_response (e : TrustEngine) (llm_response query : String)
    (user_conditions user_medications user_allergies : List String)
    (current_condition : Option String) : List VerificationResult × List String :=
  let condition := activeCondition query current_condition
  let found_herbs := foundHerbs e llm_response user_allergies
  let results := (pyDedup found_herbs).map
    (fun herb => verifySingleClaim e herb condition user_conditions user_medications)
  (results, generateGlobalWarnings results)

/-- Python f-string display of an Optional[str] (None prints as "None"). -/
def optStrDisplay : Option String → String
  | Option.none => "None"
  | some s => s

/-- The markdown block for one verified result. -/
def formatVerifiedEntry (r : VerificationResult) : String :=
  let emoji := if r.confidence_score ≥ 8 then "\u00F0\u009F\u009F\u00A2"
    else if r.confidence_score ≥ 5 then "\u00F0\u009F\u009F\u00A1"
    else "\u00F0\u009F\u0094\u00B4"
  "**" ++ pyTitle r.herb_name ++ "** " ++ emoji ++ " **" ++ scoreDisplay r.confidence_score
    ++ "/10**\n"
  ++ "Evidence: " ++ r.evidence_tier_label ++ " (" ++ toString r.pubmed_count ++ " studies)\n"
  ++ "Mechanism: " ++ r.mechanism ++ "\n"
  ++ (if optStrTruthy r.recommended_dose then "Dose: " ++ optStrDisplay r.recommended_dose ++ "\n" else "")
  ++ (if optStrTruthy r.interaction_note then optStrDisplay r.interaction_note ++ "\n" else "")
  ++ String.join ((r.warnings.filter (fun w => some w ≠ r.interaction_note)).map (fun w => w ++ "\n"))
  ++ "\n"

/-- The markdown block for one unverified result. -/
def formatUnverifiedEntry (r : VerificationResult) : String :=
  warnSign ++ " **" ++ pyTitle r.herb_name ++ "** - " ++ optStrDisplay r.hallucination_reason ++ "\n"
  ++ (if optStrTruthy r.interaction_note then "   " ++ optStrDisplay r.interaction_note ++ "\n" else "")

/-- TrustEngine.format_validation_section: render the verification results as
a markdown appendix; empty results give the empty string. -/
def format_validation_section (results : List VerificationResult)
    (global_warnings : List String) : String :=
  if results.isEmpty then ""
  else
    "\n\n---\n\n"
    ++ "**\u00F0\u009F\u0094\u00AC Scientific Validation (Trust Engine):**\n\n"
    ++ (if global_warnings.isEmpty then ""
        else String.join (global_warnings.map (fun w => w ++ "\n")) ++ "\n")
    ++ (let verified := results.filter (fun r => r.is_valid && !r.is_hallucination)
        if verified.isEmpty then ""
        else "**Verified Remedies:**\n\n" ++ String.join (verified.map formatVerifiedEntry))
    ++ (let unverified := results.filter (fun r => r.is_hallucination)
        if unverified.isEmpty then ""
        else "**Unverified (Use with Caution):**\n\n"
          ++ String.join (unverified.map formatUnverifiedEntry) ++ "\n")
    ++ "**Confidence Score Legend:**\n\n"
    ++ "| Score | Meaning |\n"
    ++ "|-------|--------|\n"
    ++ "| \u00F0\u009F\u009F\u00A2 8-10 | Strong clinical evidence |\n"
    ++ "| \u00F0\u009F\u009F\u00A1 5-7 | Good research support |\n"
    ++ "| \u00F0\u009F\u0094\u00B4 1-4 | Limited evidence |\n"

/-- One row of the result of TrustEngine.get_evidence_for_condition. -/
structure EvidenceRow where
  herb : String
  tier : Nat
  mechanism : String
  dose : String

/-- TrustEngine.get_evidence_for_condition: all herbs with evidence for the
lowercased condition, stably sorted ascending by tier. -/
def get_evidence_for_condition (e : TrustEngine) (condition : String) : List EvidenceRow :=
  let condition_lower := pyLower condition
  let results := (e.evidence_db.filter (fun p => p.1.2 == condition_lower)).map
    (fun p => ⟨p.1.1, p.2.tier, p.2.mechanism, p.2.dose⟩)
  results.mergeSort (fun a b => a.tier ≤ b.tier)
/-! Helper lemmas about the embedding -/

theorem mem_of_mem_dedupAux {x : String} {seen : List String} :
    ∀ {l : List String}, x ∈ dedupAux seen l → x ∈ l := by
  intro l
  induction l generalizing seen with
  | nil => intro h; exact absurd h (by simp [dedupAux])
  | cons a as ih =>
    intro h
    unfold dedupAux at h
    split at h
    · exact List.mem_cons_of_mem a (ih h)
    · rcases List.mem_cons.mp h with rfl | h2
      · exact List.mem_cons_self x as
      · exact List.mem_cons_of_mem a (ih h2)

theorem mem_of_mem_pyDedup {x : String} {l : List String} (h : x ∈ pyDedup l) : x ∈ l :=
  mem_of_mem_dedupAux h

theorem roundHalfEven_le {q : ℚ} {n : ℤ} (h : q ≤ (n : ℚ)) : roundHalfEven q ≤ n := by
  have hf : ⌊q⌋ ≤ n := by
    have h2 := Int.floor_le_floor h
    simpa using h2
  have hstrict : ¬ (q - ⌊q⌋ < 1/2) → ⌊q⌋ < n := by
    intro hge
    have hq : (⌊q⌋ : ℚ) < q := by
      have := not_lt.mp hge
      linarith
    by_contra hc
    push_neg at hc
    have h3 : (n : ℚ) ≤ (⌊q⌋ : ℚ) := by exact_mod_cast hc
    linarith
  unfold roundHalfEven
  split
  · exact hf
  · rename_i h1
    have hlt := hstrict h1
    split
    · omega
    · split <;> omega

theorem le_roundHalfEven {q : ℚ} {n : ℤ} (h : (n : ℚ) ≤ q) : n ≤ roundHalfEven q := by
  have hf : n ≤ ⌊q⌋ := Int.le_floor.mpr h
  unfold roundHalfEven
  split
  · exact hf
  split
  · omega
  split
  · exact hf
  · omega

theorem pyRound1_bounds {q : ℚ} (h1 : 1 ≤ q) (h2 : q ≤ 10) :
    1 ≤ pyRound1 q ∧ pyRound1 q ≤ 10 := by
  unfold pyRound1
  have hlo : (10 : ℤ) ≤ roundHalfEven (q * 10) := le_roundHalfEven (by push_cast; linarith)
  have hhi : roundHalfEven (q * 10) ≤ (100 : ℤ) := roundHalfEven_le (by push_cast; linarith)
  have hlo2 : (10 : ℚ) ≤ (roundHalfEven (q * 10) : ℚ) := by exact_mod_cast hlo
  have hhi2 : ((roundHalfEven (q * 10) : ℚ)) ≤ 100 := by exact_mod_cast hhi
  constructor
  · rw [le_div_iff₀ (by norm_num : (0:ℚ) < 10)]
    linarith
  · rw [div_le_iff₀ (by norm_num : (0:ℚ) < 10)]
    linarith

theorem base_scores_ge (t : Nat) : (1.5 : ℚ) ≤ base_scores t := by
  unfold base_scores
  repeat' split
  all_goals norm_num

theorem base_scores_le (t : Nat) : base_scores t ≤ (9 : ℚ) := by
  unfold base_scores
  repeat' split
  all_goals norm_num

/-- The scoring formula as the code computes it: tier base plus citation and
mechanism bonuses, clamped above at 10.0 first, then the warning penalty with
a floor of 1.0 applied only when at least one warning exists, then rounding. -/
def codeConfidenceScore (tier nCites : Nat) (mech : Bool) (nWarnings : Nat) : ℚ :=
  pyRound1 (if nWarnings = 0 then
      min (base_scores tier + min ((nCites : ℚ) * 0.3) 1.0 + (if mech then 0.5 else 0)) 10.0
    else max (min (base_scores tier + min ((nCites : ℚ) * 0.3) 1.0
      + (if mech then 0.5 else 0)) 10.0 - (nWarnings : ℚ) * 1.0) 1.0)

/-- The scoring formula as the specification sentence states it: tier base
plus bonuses, minus the warning penalty, then clamped to [1.0, 10.0], then
rounded - the penalty is subtracted before the clamp to 10.0. -/
def specConfidenceScore (tier nCites : Nat) (mech : Bool) (nWarnings : Nat) : ℚ :=
  pyRound1 (min (max (base_scores tier + min ((nCites : ℚ) * 0.3) 1.0
    + (if mech then 0.5 else 0) - (nWarnings : ℚ) * 1.0) 1.0) 10.0)

theorem codeConfidenceScore_bounds (t c : Nat) (m : Bool) (n : Nat) :
    1 ≤ codeConfidenceScore t c m n ∧ codeConfidenceScore t c m n ≤ 10 := by
  unfold codeConfidenceScore
  have hb1 := base_scores_ge t
  have hc1 : (0 : ℚ) ≤ min ((c : ℚ) * 0.3) 1.0 := le_min (by positivity) (by norm_num)
  have hm1 : (0 : ℚ) ≤ (if m then (0.5 : ℚ) else 0) := by split <;> norm_num
  have hs1 : (1 : ℚ) ≤ min (base_scores t + min ((c : ℚ) * 0.3) 1.0
      + (if m then (0.5 : ℚ) else 0)) 10.0 := le_min (by linarith) (by norm_num)
  have hs2 : min (base_scores t + min ((c : ℚ) * 0.3) 1.0
      + (if m then (0.5 : ℚ) else 0)) 10.0 ≤ 10 := by
    calc min (base_scores t + min ((c : ℚ) * 0.3) 1.0
        + (if m then (0.5 : ℚ) else 0)) 10.0 ≤ 10.0 := min_le_right _ _
      _ ≤ 10 := by norm_num
  split
  · exact pyRound1_bounds hs1 hs2
  · have hn : (0 : ℚ) ≤ (n : ℚ) * 1.0 := by positivity
    refine pyRound1_bounds ?_ ?_
    · calc (1 : ℚ) ≤ 1.0 := by norm_num
        _ ≤ _ := le_max_right _ _
    · exact max_le (by linarith) (by norm_num)

/-! Field characterizations of verifySingleClaim -/

theorem vsc_herb_name (e : TrustEngine) (h c : String) (u m : List String) :
    (verifySingleClaim e h c u m).herb_name = h := by
  simp only [verifySingleClaim]
  cases hl : List.lookup (pyLower h, pyLower c) e.evidence_db with
  | none => rfl
  | some ev => rfl

theorem vsc_condition (e : TrustEngine) (h c : String) (u m : List String) :
    (verifySingleClaim e h c u m).condition = c := by
  simp only [verifySingleClaim]
  cases hl : List.lookup (pyLower h, pyLower c) e.evidence_db with
  | none => rfl
  | some ev => rfl

theorem vsc_warnings (e : TrustEngine) (h c : String) (u m : List String) :
    (verifySingleClaim e h c u m).warnings =
      interactionWarnings e h (pyLower h) m ++ contraindicationWarnings e h (pyLower h) u := by
  simp only [verifySingleClaim]
  cases hl : List.lookup (pyLower h, pyLower c) e.evidence_db with
  | none => rfl
  | some ev => rfl

theorem vsc_note (e : TrustEngine) (h c : String) (u m : List String) :
    (verifySingleClaim e h c u m).interaction_note =
      (interactionWarnings e h (pyLower h) m).getLast? := by
  simp only [verifySingleClaim]
  cases hl : List.lookup (pyLower h, pyLower c) e.evidence_db with
  | none => rfl
  | some ev => rfl

theorem vsc_hallucination_iff (e : TrustEngine) (h c : String) (u m : List String) :
    (verifySingleClaim e h c u m).is_hallucination = true ↔
      List.lookup (pyLower h, pyLower c) e.evidence_db = Option.none := by
  simp only [verifySingleClaim]
  cases hl : List.lookup (pyLower h, pyLower c) e.evidence_db with
  | none => simp
  | some ev => simp

theorem vsc_valid_not_hallucination (e : TrustEngine) (h c : String) (u m : List String) :
    (verifySingleClaim e h c u m).is_valid = !(verifySingleClaim e h c u m).is_hallucination := by
  simp only [verifySingleClaim]
  cases hl : List.lookup (pyLower h, pyLower c) e.evidence_db with
  | none => rfl
  | some ev => rfl

theorem vsc_score_of_lookup (e : TrustEngine) (h c : String) (u m : List String)
    (ev : Evidence) (hl : List.lookup (pyLower h, pyLower c) e.evidence_db = some ev) :
    (verifySingleClaim e h c u m).confidence_score =
      codeConfidenceScore ev.tier ev.pubmed_ids.length (strTruthy ev.mechanism)
        (verifySingleClaim e h c u m).warnings.length := by
  simp only [verifySingleClaim]
  rw [hl]
  cases hws : interactionWarnings e h (pyLower h) m
      ++ contraindicationWarnings e h (pyLower h) u with
  | nil => simp [codeConfidenceScore]
  | cons w ws => simp [codeConfidenceScore]

theorem vsc_no_evidence (e : TrustEngine) (h c : String) (u m : List String)
    (hl : List.lookup (pyLower h, pyLower c) e.evidence_db = Option.none) :
    (verifySingleClaim e h c u m).confidence_score = 2.0
    ∧ (verifySingleClaim e h c u m).evidence_tier_label = "Unverified"
    ∧ (verifySingleClaim e h c u m).is_hallucination = true
    ∧ (verifySingleClaim e h c u m).hallucination_reason
        = some ("No evidence linking " ++ h ++ " to " ++ c) := by
  simp only [verifySingleClaim]
  rw [hl]
  exact ⟨rfl, rfl, rfl, rfl⟩

theorem vsc_score_bounds (e : TrustEngine) (h c : String) (u m : List String) :
    1 ≤ (verifySingleClaim e h c u m).confidence_score
    ∧ (verifySingleClaim e h c u m).confidence_score ≤ 10 := by
  cases hl : List.lookup (pyLower h, pyLower c) e.evidence_db with
  | none =>
    rw [(vsc_no_evidence e h c u m hl).1]
    norm_num
  | some ev =>
    rw [vsc_score_of_lookup e h c u m ev hl]
    exact codeConfidenceScore_bounds _ _ _ _

/-! Decomposition of verify_response -/

theorem mem_results (e : TrustEngine) (resp q : String) (ucs ums uas : List String)
    (cc : Option String) (r : VerificationResult)
    (hr : r ∈ (verify_response e resp q ucs ums uas cc).1) :
    ∃ herb, herb ∈ foundHerbs e resp uas
      ∧ r = verifySingleClaim e herb (activeCondition q cc) ucs ums := by
  simp only [verify_response] at hr
  rcases List.mem_map.mp hr with ⟨herb, hmem, hreq⟩
  exact ⟨herb, mem_of_mem_pyDedup hmem, hreq.symm⟩

theorem foundHerbs_spec (e : TrustEngine) (resp : String) (uas : List String)
    (herb : String) (h : herb ∈ foundHerbs e resp uas) :
    herb ∈ e.known_herbs ∧ (uas.map pyLower).contains herb = false := by
  unfold foundHerbs at h
  have h2 := List.mem_filter.mp h
  refine ⟨h2.1, ?_⟩
  have h3 := h2.2
  cases hc : (uas.map pyLower).contains herb with
  | false => rfl
  | true => rw [hc] at h3; simp at h3

theorem globals_from_results (e : TrustEngine) (resp q : String)
    (ucs ums uas : List String) (cc : Option String) :
    (verify_response e resp q ucs ums uas cc).2 =
      generateGlobalWarnings (verify_response e resp q ucs ums uas cc).1 := rfl
/-! Claim theorems -/

/-- C9: format_validation_section returns the empty string (and does not
raise) whenever it is given an empty list of verification results, regardless
of the global warnings supplied. -/
theorem C9_empty_results_empty_output (global_warnings : List String) :
    format_validation_section [] global_warnings = "" := rfl

/-- C6: when no EvidenceEntry exists for the (herb, condition) pair, the
tier-based scoring formula is skipped and the VerificationResult carries
exactly confidence_score 2.0, tier label "Unverified", is_hallucination true,
and the reason string "No evidence linking herb to condition". -/
theorem C6_unverified_result (e : TrustEngine) (herb cond : String)
    (ucs ums : List String)
    (hl : List.lookup (pyLower herb, pyLower cond) e.evidence_db = Option.none) :
    (verifySingleClaim e herb cond ucs ums).confidence_score = 2.0
    ∧ (verifySingleClaim e herb cond ucs ums).evidence_tier_label = "Unverified"
    ∧ (verifySingleClaim e herb cond ucs ums).is_hallucination = true
    ∧ (verifySingleClaim e herb cond ucs ums).hallucination_reason
        = some ("No evidence linking " ++ herb ++ " to " ++ cond) :=
  vsc_no_evidence e herb cond ucs ums hl

/-- Witness for C6 at scenario 3 of the spec: clove has no evidence entry for
nausea, so its result is the flat unverified one. -/
theorem C6_witness :
    (verifySingleClaim theEngine "clove" "nausea" [] []).confidence_score = 2.0
    ∧ (verifySingleClaim theEngine "clove" "nausea" [] []).evidence_tier_label = "Unverified"
    ∧ (verifySingleClaim theEngine "clove" "nausea" [] []).is_hallucination = true
    ∧ (verifySingleClaim theEngine "clove" "nausea" [] []).hallucination_reason
        = some ("No evidence linking " ++ "clove" ++ " to " ++ "nausea") :=
  C6_unverified_result theEngine "clove" "nausea" [] [] (by decide)

/-- C2: for every VerificationResult returned by verify_response,
is_hallucination holds exactly when no evidence entry exists for the herb and
the active condition, and is_valid is always its negation. -/
theorem C2_hallucination_flag_consistency (e : TrustEngine) (resp q : String)
    (ucs ums uas : List String) (cc : Option String) (r : VerificationResult)
    (hr : r ∈ (verify_response e resp q ucs ums uas cc).1) :
    (r.is_hallucination = true ↔
      List.lookup (pyLower r.herb_name, pyLower (activeCondition q cc)) e.evidence_db
        = Option.none)
    ∧ r.is_valid = !r.is_hallucination := by
  rcases mem_results e resp q ucs ums uas cc r hr with ⟨herb, hmem, rfl⟩
  rw [vsc_herb_name]
  exact ⟨vsc_hallucination_iff e herb (activeCondition q cc) ucs ums,
    vsc_valid_not_hallucination e herb (activeCondition q cc) ucs ums⟩

/-- Witness for C2 on a found herb with evidence. -/
theorem C2_witness :
    ((verifySingleClaim theEngine "ginger" "nausea" [] []).is_hallucination = true ↔
      List.lookup (pyLower (verifySingleClaim theEngine "ginger" "nausea" [] []).herb_name,
        pyLower (activeCondition "x" (some "nausea"))) theEngine.evidence_db = Option.none)
    ∧ (verifySingleClaim theEngine "ginger" "nausea" [] []).is_valid
        = !(verifySingleClaim theEngine "ginger" "nausea" [] []).is_hallucination :=
  C2_hallucination_flag_consistency theEngine "use ginger" "x" [] [] [] (some "nausea")
    (verifySingleClaim theEngine "ginger" "nausea" [] [])
    (by
      have hrs : (verify_response theEngine "use ginger" "x" [] [] [] (some "nausea")).1
          = [verifySingleClaim theEngine "ginger" "nausea" [] []] := rfl
      rw [hrs]
      exact List.mem_singleton_self _)

/-- C3: every VerificationResult produced by verify_response has a confidence
score in the closed interval [1.0, 10.0]. -/
theorem C3_score_bounds (e : TrustEngine) (resp q : String)
    (ucs ums uas : List String) (cc : Option String) (r : VerificationResult)
    (hr : r ∈ (verify_response e resp q ucs ums uas cc).1) :
    1 ≤ r.confidence_score ∧ r.confidence_score ≤ 10 := by
  rcases mem_results e resp q ucs ums uas cc r hr with ⟨herb, hmem, rfl⟩
  exact vsc_score_bounds e herb (activeCondition q cc) ucs ums

/-- Witness for C3. -/
theorem C3_witness :
    1 ≤ (verifySingleClaim theEngine "peppermint" "headache" [] []).confidence_score
    ∧ (verifySingleClaim theEngine "peppermint" "headache" [] []).confidence_score ≤ 10 :=
  C3_score_bounds theEngine "drink peppermint" "x" [] [] [] (some "headache")
    (verifySingleClaim theEngine "peppermint" "headache" [] [])
    (by
      have hrs : (verify_response theEngine "drink peppermint" "x" [] [] [] (some "headache")).1
          = [verifySingleClaim theEngine "peppermint" "headache" [] []] := rfl
      rw [hrs]
      exact List.mem_singleton_self _)

/-- Every herb in the herb registry is stored lowercased (the registry is
built from lowercased keys), which is what makes the allergy membership check
case-insensitive. -/
theorem knownHerbs_lowercase : ∀ s ∈ theEngine.known_herbs, pyLower s = s := by
  intro s hs
  have hall : theEngine.known_herbs.all (fun t => pyLower t == t) = true := by decide
  have h2 := List.all_eq_true.mp hall s hs
  exact eq_of_beq h2

/-- C4: a herb whose name appears case-insensitively in the allergy list
never appears among the returned VerificationResults, and the global warnings
are a function of those results alone (so no warning about it is emitted),
whatever the response text says. -/
theorem C4_allergy_exclusion (resp q : String) (ucs ums uas : List String)
    (cc : Option String) (a : String) (ha : a ∈ uas) (r : VerificationResult)
    (hr : r ∈ (verify_response theEngine resp q ucs ums uas cc).1) :
    pyLower r.herb_name ≠ pyLower a
    ∧ (verify_response theEngine resp q ucs ums uas cc).2
        = generateGlobalWarnings (verify_response theEngine resp q ucs ums uas cc).1 := by
  rcases mem_results theEngine resp q ucs ums uas cc r hr with ⟨herb, hmem, rfl⟩
  rw [vsc_herb_name]
  refine ⟨?_, rfl⟩
  obtain ⟨hknown, hcontains⟩ := foundHerbs_spec theEngine resp uas herb hmem
  have hlow : pyLower herb = herb := knownHerbs_lowercase herb hknown
  rw [hlow]
  intro heq
  have hmema : pyLower a ∈ uas.map pyLower := List.mem_map_of_mem pyLower ha
  rw [← heq] at hmema
  have : (uas.map pyLower).contains herb = true := List.contains_iff_exists_mem_beq.mpr
    ⟨herb, hmema, by simp⟩
  rw [this] at hcontains
  cases hcontains

/-- Witness for C4: with an allergy to Ginger (capitalized), a response
mentioning both ginger and peppermint yields only the peppermint result. -/
theorem C4_witness :
    pyLower (verifySingleClaim theEngine "peppermint" "headache" [] []).herb_name
        ≠ pyLower "Ginger"
    ∧ (verify_response theEngine "ginger and peppermint" "x" [] [] ["Ginger"]
          (some "headache")).2
        = generateGlobalWarnings
            (verify_response theEngine "ginger and peppermint" "x" [] [] ["Ginger"]
              (some "headache")).1 :=
  C4_allergy_exclusion "ginger and peppermint" "x" [] [] ["Ginger"] (some "headache")
    "Ginger" (List.mem_singleton_self _)
    (verifySingleClaim theEngine "peppermint" "headache" [] [])
    (by
      have hrs : (verify_response theEngine "ginger and peppermint" "x" [] [] ["Ginger"]
            (some "headache")).1
          = [verifySingleClaim theEngine "peppermint" "headache" [] []] := rfl
      rw [hrs]
      exact List.mem_singleton_self _)

/-- C5 counterexample: chamomile registers warfarin at severity low, the user
medication "warfarin" matches that drug key bidirectionally, and yet no
warning at all is recorded on the chamomile VerificationResult — matches of
severity low are not reported, contradicting the claim that matches of every
severity level are. -/
theorem C5_counterexample :
    ((List.lookup "chamomile" theEngine.interactions_db).map
        (fun d => List.lookup "warfarin" d.interacts_with)) = some (some InteractionSeverity.low)
    ∧ (strContains (pyLower "warfarin") "warfarin"
        || strContains "warfarin" (pyLower "warfarin")) = true
    ∧ (verifySingleClaim theEngine "chamomile" "nausea" [] ["warfarin"]).warnings = [] :=
  ⟨by decide, by decide, by decide⟩

/-- The interaction warning text is some only at severities critical, high
and moderate: matches of severity low or none never yield a warning text. -/
theorem interactionWarningText_some {hn med eff : String} {sev : InteractionSeverity}
    {w : String} (h : interactionWarningText hn med eff sev = some w) :
    sev = InteractionSeverity.critical ∨ sev = InteractionSeverity.high
      ∨ sev = InteractionSeverity.moderate := by
  cases sev with
  | critical => exact Or.inl rfl
  | high => exact Or.inr (Or.inl rfl)
  | moderate => exact Or.inr (Or.inr rfl)
  | low =>
    rw [show interactionWarningText hn med eff InteractionSeverity.low
        = Option.none from rfl] at h
    cases h
  | sevNone =>
    rw [show interactionWarningText hn med eff InteractionSeverity.sevNone
        = Option.none from rfl] at h
    cases h

/-- C5 (amended): a bidirectional substring match between a supplied
medication and a registered drug key is recorded as a warning on the
VerificationResult of the herb when its severity is critical, high (both
escalated as INTERACTION) or moderate (advisory Caution); and conversely
every warning on the result is either a contraindication warning or arises
from such a match of severity critical, high or moderate — so matches of
severity low or none produce no warning at all. -/
theorem C5_interaction_matching (e : TrustEngine) (herb cond : String)
    (ucs ums : List String) (med dk : String) (sev : InteractionSeverity)
    (idata : InteractionData)
    (hlook : List.lookup (pyLower herb) e.interactions_db = some idata)
    (hmed : med ∈ ums)
    (hdk : (dk, sev) ∈ idata.interacts_with)
    (hmatch : (strContains (pyLower med) dk || strContains dk (pyLower med)) = true) :
    (sev = InteractionSeverity.critical ∨ sev = InteractionSeverity.high →
      warnSign ++ " INTERACTION: " ++ herb ++ " may interact with " ++ med
        ++ ".  Reason: " ++ idata.effect ∈ (verifySingleClaim e herb cond ucs ums).warnings)
    ∧ (sev = InteractionSeverity.moderate →
      warnSign ++ " Caution: " ++ herb ++ " + " ++ med ++ " - monitor for: "
        ++ idata.effect ∈ (verifySingleClaim e herb cond ucs ums).warnings)
    ∧ (∀ w ∈ (verifySingleClaim e herb cond ucs ums).warnings,
      w ∈ contraindicationWarnings e herb (pyLower herb) ucs
      ∨ ∃ med2, med2 ∈ ums ∧ ∃ p, p ∈ idata.interacts_with
          ∧ (strContains (pyLower med2) p.1 || strContains p.1 (pyLower med2)) = true
          ∧ (p.2 = InteractionSeverity.critical ∨ p.2 = InteractionSeverity.high
              ∨ p.2 = InteractionSeverity.moderate)
          ∧ interactionWarningText herb med2 idata.effect p.2 = some w) := by
  rw [vsc_warnings]
  refine ⟨?_, ?_, ?_⟩
  · intro hsev
    apply List.mem_append_left
    unfold interactionWarnings
    rw [hlook]
    refine List.mem_flatMap.mpr ⟨med, hmed, ?_⟩
    refine List.mem_filterMap.mpr ⟨(dk, sev), hdk, ?_⟩
    simp only [hmatch, if_true]
    unfold interactionWarningText
    rcases hsev with rfl | rfl
    · simp
    · simp
  · intro hsev
    subst hsev
    apply List.mem_append_left
    unfold interactionWarnings
    rw [hlook]
    refine List.mem_flatMap.mpr ⟨med, hmed, ?_⟩
    refine List.mem_filterMap.mpr ⟨(dk, InteractionSeverity.moderate), hdk, ?_⟩
    simp only [hmatch, if_true]
    unfold interactionWarningText
    simp
  · intro w hw
    rcases List.mem_append.mp hw with h1 | h2
    · right
      unfold interactionWarnings at h1
      rw [hlook] at h1
      rcases List.mem_flatMap.mp h1 with ⟨med2, hmed2, hmem2⟩
      rcases List.mem_filterMap.mp hmem2 with ⟨p, hp, hptxt⟩
      cases hcond : (strContains (pyLower med2) p.1 || strContains p.1 (pyLower med2)) with
      | false =>
        rw [if_neg (by simp [hcond])] at hptxt
        cases hptxt
      | true =>
        rw [if_pos hcond] at hptxt
        exact ⟨med2, hmed2, p, hp, hcond, interactionWarningText_some hptxt, hptxt⟩
    · exact Or.inl h2
/-- C1 counterexample: (ginger, nausea) has an EvidenceEntry with tier 1, two
citations and a non-empty mechanism; with one accumulated warning (a
gallstones contraindication) verify_response returns score 9.0, while the
claimed formula — penalty subtracted before the clamp to 10.0 — yields 9.1:
the code clamps at 10.0 before subtracting the penalty, not after. -/
theorem C1_counterexample :
    ((List.lookup ("ginger", "nausea") theEngine.evidence_db).map
        (fun ev => (ev.tier, ev.pubmed_ids.length, strTruthy ev.mechanism))) = some (1, 2, true)
    ∧ ((verify_response theEngine "Try ginger tea" "help" ["gallstones"] [] []
          (some "nausea")).1.map (fun r => (r.herb_name, r.warnings.length)))
        = [("ginger", 1)]
    ∧ (verify_response theEngine "Try ginger tea" "help" ["gallstones"] [] []
          (some "nausea")).1.map (fun r => r.confidence_score) = [9]
    ∧ specConfidenceScore 1 2 true 1 = 91/10
    ∧ ((9 : ℚ) ≠ 91/10) := by
  refine ⟨by decide, by decide, ?_, ?_, by norm_num⟩
  · have hrs : (verify_response theEngine "Try ginger tea" "help" ["gallstones"] [] []
          (some "nausea")).1
        = [verifySingleClaim theEngine "ginger" "nausea" ["gallstones"] []] := rfl
    rw [hrs]
    have hl : List.lookup (pyLower "ginger", pyLower "nausea") theEngine.evidence_db
        = some ⟨1, "5-HT3 receptor antagonism blocks nausea signals. Accelerates gastric emptying.  Effective for pregnancy, chemo, motion sickness.", ["PMC3016669", "PMC4818021"], "1-1.5g dried ginger, or 1-2g fresh, or 250mg extract 4 times daily"⟩ := by
      decide
    have hs := vsc_score_of_lookup theEngine "ginger" "nausea" ["gallstones"] [] _ hl
    have hw : (verifySingleClaim theEngine "ginger" "nausea" ["gallstones"] []).warnings.length
        = 1 := by decide
    rw [hw] at hs
    dsimp only at hs
    have hm : strTruthy "5-HT3 receptor antagonism blocks nausea signals. Accelerates gastric emptying.  Effective for pregnancy, chemo, motion sickness." = true := by decide
    rw [hm] at hs
    simp only [List.map_cons, List.map_nil, hs]
    norm_num [codeConfidenceScore, base_scores, pyRound1, roundHalfEven, min_def, max_def,
      Rat.floor_def]
  · norm_num [specConfidenceScore, base_scores, pyRound1, roundHalfEven, min_def, max_def,
      Rat.floor_def]

/-- C1 (amended): for every result of verify_response whose herb and active
condition have an EvidenceEntry, the confidence score equals the tier base
score plus the citation bonus min(citations * 0.3, 1.0) plus 0.5 for a
non-empty mechanism, clamped above at 10.0 FIRST, then lowered by 1.0 per
accumulated warning with a floor of 1.0 applied only when warnings exist,
then rounded to one decimal place. -/
theorem C1_score_formula (e : TrustEngine) (resp q : String)
    (ucs ums uas : List String) (cc : Option String) (r : VerificationResult)
    (ev : Evidence)
    (hr : r ∈ (verify_response e resp q ucs ums uas cc).1)
    (hl : List.lookup (pyLower r.herb_name, pyLower (activeCondition q cc)) e.evidence_db
        = some ev) :
    r.confidence_score = codeConfidenceScore ev.tier ev.pubmed_ids.length
      (strTruthy ev.mechanism) r.warnings.length := by
  rcases mem_results e resp q ucs ums uas cc r hr with ⟨herb, hmem, rfl⟩
  rw [vsc_herb_name] at hl
  exact vsc_score_of_lookup e herb (activeCondition q cc) ucs ums ev hl

/-- Witness for C1 (amended). -/
theorem C1_witness :
    (verifySingleClaim theEngine "ginger" "nausea" ["gallstones"] []).confidence_score
      = codeConfidenceScore 1 2 true
          (verifySingleClaim theEngine "ginger" "nausea" ["gallstones"] []).warnings.length := by
  have happ := C1_score_formula theEngine "Try ginger tea" "help" ["gallstones"] [] []
    (some "nausea") (verifySingleClaim theEngine "ginger" "nausea" ["gallstones"] [])
    ⟨1, "5-HT3 receptor antagonism blocks nausea signals. Accelerates gastric emptying.  Effective for pregnancy, chemo, motion sickness.", ["PMC3016669", "PMC4818021"], "1-1.5g dried ginger, or 1-2g fresh, or 250mg extract 4 times daily"⟩
    (by
      have hrs : (verify_response theEngine "Try ginger tea" "help" ["gallstones"] [] []
            (some "nausea")).1
          = [verifySingleClaim theEngine "ginger" "nausea" ["gallstones"] []] := rfl
      rw [hrs]
      exact List.mem_singleton_self _)
    (by decide)
  exact happ

/-- Number of returned results carrying a CONTRAINDICATED-type warning. -/
def contraCount (results : List VerificationResult) : Nat :=
  (results.filter (fun r => r.warnings.any (fun w => strContains w "CONTRAINDICATED"))).length

/-- Number of returned results flagged as hallucinations. -/
def halluCount (results : List VerificationResult) : Nat :=
  (results.filter (fun r => r.is_hallucination)).length

/-- The summary string reporting the contraindicated count. -/
def contraSummary (n : Nat) : String :=
  noSign ++ " " ++ toString n ++ " remedy(s) may be contraindicated for you"

/-- The summary string reporting the hallucination count. -/
def halluSummary (n : Nat) : String :=
  infoSign ++ " " ++ toString n
    ++ " suggestion(s) could not be verified against our evidence database"

/-- C7: the global warnings of verify_response are exactly one summary string
per non-zero count — first the contraindicated-herb count, then the
hallucination count — each reporting the exact count, and the list is empty
when both counts are zero. -/
theorem C7_global_warning_aggregation (e : TrustEngine) (resp q : String)
    (ucs ums uas : List String) (cc : Option String) :
    (verify_response e resp q ucs ums uas cc).2
      = (if contraCount (verify_response e resp q ucs ums uas cc).1 > 0
          then [contraSummary (contraCount (verify_response e resp q ucs ums uas cc).1)]
          else [])
        ++ (if halluCount (verify_response e resp q ucs ums uas cc).1 > 0
          then [halluSummary (halluCount (verify_response e resp q ucs ums uas cc).1)]
          else [])
    ∧ (verify_response e resp q ucs ums uas cc).2.length
        = (if contraCount (verify_response e resp q ucs ums uas cc).1 > 0 then 1 else 0)
          + (if halluCount (verify_response e resp q ucs ums uas cc).1 > 0 then 1 else 0)
    ∧ (contraCount (verify_response e resp q ucs ums uas cc).1 = 0 →
        halluCount (verify_response e resp q ucs ums uas cc).1 = 0 →
        (verify_response e resp q ucs ums uas cc).2 = []) := by
  have h1 : (verify_response e resp q ucs ums uas cc).2
      = (if contraCount (verify_response e resp q ucs ums uas cc).1 > 0
          then [contraSummary (contraCount (verify_response e resp q ucs ums uas cc).1)]
          else [])
        ++ (if halluCount (verify_response e resp q ucs ums uas cc).1 > 0
          then [halluSummary (halluCount (verify_response e resp q ucs ums uas cc).1)]
          else []) := rfl
  refine ⟨h1, ?_, ?_⟩
  · rw [h1]
    split <;> split <;> simp
  · intro hc hh
    rw [h1, hc, hh]
    simp

/-- Witness for C7 at the shape of scenario 5 of the spec: two contraindicated herbs
(ginger and turmeric, both blocked for gallstones) and one hallucination
(turmeric has no evidence for nausea) produce exactly the two summary strings
reporting 2 and 1. -/
theorem C7_witness :
    contraCount (verify_response theEngine "try ginger and turmeric" "x" ["gallstones"] [] []
        (some "nausea")).1 = 2
    ∧ halluCount (verify_response theEngine "try ginger and turmeric" "x" ["gallstones"] [] []
        (some "nausea")).1 = 1
    ∧ (verify_response theEngine "try ginger and turmeric" "x" ["gallstones"] [] []
        (some "nausea")).2 = [contraSummary 2, halluSummary 1] := by
  have hc : contraCount (verify_response theEngine "try ginger and turmeric" "x" ["gallstones"]
      [] [] (some "nausea")).1 = 2 := by decide
  have hh : halluCount (verify_response theEngine "try ginger and turmeric" "x" ["gallstones"]
      [] [] (some "nausea")).1 = 1 := by decide
  refine ⟨hc, hh, ?_⟩
  have h := (C7_global_warning_aggregation theEngine "try ginger and turmeric" "x" ["gallstones"]
    [] [] (some "nausea")).1
  rw [h, hc, hh]
  simp
theorem strTruthy_eq_false_iff (s : String) : strTruthy s = false ↔ s = "" := by
  obtain ⟨d⟩ := s
  cases d with
  | nil => simp [strTruthy]
  | cons c cs =>
    simp only [strTruthy, List.isEmpty_cons, Bool.not_false]
    constructor
    · intro hx; cases hx
    · intro hx
      have h2 : c :: cs = ([] : List Char) := congrArg String.data hx
      exact (List.cons_ne_nil c cs h2).elim

/-- First-match-wins scan of an ordered (condition, keywords) table: the first
condition one of whose keywords occurs in the query, else "general health"
(this is how the specification describes the fallback classifier). -/
def specFirstMatch : List (String × List String) → String → String
  | [], _ => "general health"
  | (cond, kws) :: rest, ql =>
    if kws.any (fun keyword => strContains ql keyword) then cond
    else specFirstMatch rest ql

/-- The active condition as the specification describes it, amended: a
supplied non-empty current_condition is used lowercased and trimmed; a
missing (or empty, which Python treats as not supplied) one falls back to the
first-match keyword scan of the original query. -/
def specActiveCondition (query : String) (cc : Option String) : String :=
  match cc with
  | some c =>
    if c = "" then specFirstMatch condition_map (pyLower query)
    else pyStrip (pyLower c)
  | Option.none => specFirstMatch condition_map (pyLower query)

theorem specFirstMatch_eq (ql : String) :
    ∀ l : List (String × List String),
      (match l.find? (fun p => p.2.any (fun keyword => strContains ql keyword)) with
        | some p => p.1
        | Option.none => "general health") = specFirstMatch l ql := by
  intro l
  induction l with
  | nil => rfl
  | cons hd tl ih =>
    rcases hd with ⟨cond, kws⟩
    cases hp : kws.any (fun keyword => strContains ql keyword) with
    | true =>
      rw [List.find?_cons_of_pos _ (by simpa using hp)]
      simp [specFirstMatch, hp]
    | false =>
      rw [List.find?_cons_of_neg _ (by simpa using hp)]
      simp only [specFirstMatch, hp]
      simpa using ih

theorem activeCondition_eq_spec (q : String) (cc : Option String) :
    activeCondition q cc = specActiveCondition q cc := by
  have hid : identifyCondition q = specFirstMatch condition_map (pyLower q) := by
    simp only [identifyCondition]
    exact specFirstMatch_eq (pyLower q) condition_map
  unfold activeCondition specActiveCondition
  cases cc with
  | none => exact hid
  | some c =>
    cases hB : strTruthy c with
    | false =>
      have hc : c = "" := (strTruthy_eq_false_iff c).mp hB
      subst hc
      simp [hB, hid]
    | true =>
      have hc : ¬ (c = "") := by
        intro hce
        rw [(strTruthy_eq_false_iff c).mpr hce] at hB
        cases hB
      simp [hB, hc]

/-- C8 counterexample: the caller supplies current_condition = "" (an empty
string is a supplied value, and its lowercased-and-trimmed form is ""), yet
verify_response classifies the query instead and uses "nausea". -/
theorem C8_counterexample :
    (verify_response theEngine "use ginger" "I feel nausea" [] [] [] (some "")).1.map
        (fun r => r.condition) = ["nausea"]
    ∧ pyStrip (pyLower "") = ""
    ∧ ("nausea" : String) ≠ "" :=
  ⟨by decide, by decide, by decide⟩

/-- C8 (amended): every returned VerificationResult carries as its condition
the supplied current_condition lowercased and trimmed when that string is
non-empty (Python treats an empty string like an absent argument), and
otherwise the first condition, in declaration order of the keyword table,
with a keyword occurring in the lowercased original query, defaulting to
"general health". -/
theorem C8_condition_resolution (e : TrustEngine) (resp q : String)
    (ucs ums uas : List String) (cc : Option String) (r : VerificationResult)
    (hr : r ∈ (verify_response e resp q ucs ums uas cc).1) :
    r.condition = specActiveCondition q cc := by
  rcases mem_results e resp q ucs ums uas cc r hr with ⟨herb, hmem, rfl⟩
  rw [vsc_condition]
  exact activeCondition_eq_spec q cc

/-- Witness for C8 (amended): a passed condition is lowercased and trimmed. -/
theorem C8_witness :
    (verifySingleClaim theEngine "ginger" "nausea" [] []).condition
      = specActiveCondition "x" (some "  Nausea ") := by
  have happ := C8_condition_resolution theEngine "use ginger" "x" [] [] []
    (some "  Nausea ") (verifySingleClaim theEngine "ginger" "nausea" [] [])
    (by
      have hrs : (verify_response theEngine "use ginger" "x" [] [] [] (some "  Nausea ")).1
          = [verifySingleClaim theEngine "ginger" "nausea" [] []] := rfl
      rw [hrs]
      exact List.mem_singleton_self _)
  exact happ

/-- C10: get_evidence_for_condition returns (a permutation of) exactly the
rows of the evidence store whose key pairs the lowercased condition, in
non-decreasing tier order (lower tier = stronger evidence first); in
particular its herbs are exactly those with an evidence entry for that
condition. -/
theorem C10_evidence_for_condition (e : TrustEngine) (condition : String) :
    List.Pairwise (fun a b : EvidenceRow => a.tier ≤ b.tier)
      (get_evidence_for_condition e condition)
    ∧ (get_evidence_for_condition e condition).Perm
        ((e.evidence_db.filter (fun p => p.1.2 == pyLower condition)).map
          (fun p => ⟨p.1.1, p.2.tier, p.2.mechanism, p.2.dose⟩))
    ∧ ∀ h : String,
        (∃ row ∈ get_evidence_for_condition e condition, row.herb = h)
        ↔ ∃ ev : Evidence, ((h, pyLower condition), ev) ∈ e.evidence_db := by
  have hget : get_evidence_for_condition e condition
      = ((e.evidence_db.filter (fun p => p.1.2 == pyLower condition)).map
          (fun p => (⟨p.1.1, p.2.tier, p.2.mechanism, p.2.dose⟩ : EvidenceRow))).mergeSort
          (fun a b => a.tier ≤ b.tier) := rfl
  rw [hget]
  refine ⟨?_, ?_, ?_⟩
  · have hs := @List.sorted_mergeSort EvidenceRow
      (fun a b : EvidenceRow => decide (a.tier ≤ b.tier))
      (fun a b c hab hbc => by
        simp only [decide_eq_true_eq] at hab hbc ⊢
        omega)
      (fun a b : EvidenceRow => by
        rcases Nat.le_total a.tier b.tier with hx | hx <;> simp [hx])
      ((e.evidence_db.filter (fun p => p.1.2 == pyLower condition)).map
        (fun p => (⟨p.1.1, p.2.tier, p.2.mechanism, p.2.dose⟩ : EvidenceRow)))
    exact hs.imp (fun hab => by simpa using hab)
  · exact List.mergeSort_perm _ _
  · intro h
    constructor
    · rintro ⟨row, hrow, rfl⟩
      rw [List.mem_mergeSort] at hrow
      rcases List.mem_map.mp hrow with ⟨p, hp, rfl⟩
      rcases List.mem_filter.mp hp with ⟨hpdb, hpc⟩
      rcases p with ⟨⟨ph, pc⟩, pe⟩
      have hpc2 : pc = pyLower condition := by simpa using hpc
      refine ⟨pe, ?_⟩
      rw [← hpc2]
      exact hpdb
    · rintro ⟨ev, hev⟩
      refine ⟨⟨h, ev.tier, ev.mechanism, ev.dose⟩, ?_, rfl⟩
      rw [List.mem_mergeSort]
      exact List.mem_map.mpr ⟨((h, pyLower condition), ev),
        List.mem_filter.mpr ⟨hev, by simp⟩, rfl⟩

/-- Witness for C5 (amended): ginger registers warfarin at severity critical,
and the escalated INTERACTION warning is recorded. -/
theorem C5_witness :
    warnSign ++ " INTERACTION: " ++ "ginger" ++ " may interact with " ++ "warfarin"
        ++ ".  Reason: "
        ++ "Ginger has blood-thinning properties (inhibits platelet aggregation). Combined with anticoagulants, it significantly increases bleeding risk."
      ∈ (verifySingleClaim theEngine "ginger" "nausea" [] ["warfarin"]).warnings := by
  have hlook : List.lookup (pyLower "ginger") theEngine.interactions_db
      = some ⟨[("aspirin", InteractionSeverity.high), ("ibuprofen", InteractionSeverity.moderate), ("warfarin", InteractionSeverity.critical), ("coumadin", InteractionSeverity.critical), ("blood thinner", InteractionSeverity.high), ("blood thinners", InteractionSeverity.high), ("anticoagulant", InteractionSeverity.high), ("plavix", InteractionSeverity.high), ("clopidogrel", InteractionSeverity.high)], "Ginger has blood-thinning properties (inhibits platelet aggregation). Combined with anticoagulants, it significantly increases bleeding risk.", ["Peppermint oil (topical)", "Lavender aromatherapy", "Cold/warm compress", "Chamomile tea"]⟩ := by
    decide
  exact (C5_interaction_matching theEngine "ginger" "nausea" [] ["warfarin"] "warfarin"
    "warfarin" InteractionSeverity.critical _ hlook (List.mem_singleton_self _)
    (by decide) (by decide)).1 (Or.inl rfl)
